import Mathlib

/-!
Guide sessions of the telescope mount (`src/mount/Mount.guide.cpp`).

A shallow embedding of the guiding code of the mount: the rate table, the two
limit validators, `startGuideAxis1/2`, `stopGuideAxis1/2` and `pollGuides`.

Conventions of the embedding

* `double` values are exact rationals (`ℚ`): the code only negates them, compares
  them with `0.0` and `2` and, for two selectors, divides; rounding, infinities and
  NaN are outside the model (in `ℚ` a division by zero gives `0`).
* `unsigned long` is a `Nat` below `2^32`; additions and subtractions are reduced
  modulo `2^32` explicitly and the cast `(long)` is `toLong`.
* The members of `Mount` that this file writes are the fields of `Mount`; what it only
  reads (axis hardware flags, park and goto state, limits, the clock) is an `Env`.
* Calls to collaborators that command something (`updateTrackingRates`,
  `setFrequencyMax`, `autoSlew`, `autoSlewStop`) are appended to `Mount.trace`.
* The debug output macros `VF`, `V`, `VL`, `VLF` have no effect on the state and are
  left out.
-/

namespace OnStepX

/-! ## Data model -/

/-- Modelled from the spec: the enumeration `GuideAction` is declared in `Mount.h`;
the source only relies on `GA_NONE`, `GA_BREAK`, `GA_FORWARD`, `GA_REVERSE` and on
the order in which exactly forward and reverse are above `GA_BREAK`. -/
inductive GuideAction where
  | GA_NONE
  | GA_BREAK
  | GA_FORWARD
  | GA_REVERSE
  deriving DecidableEq, Repr

open GuideAction

/-- Numeric value of a guide action, used by the comparisons `> GA_BREAK`. -/
def GuideAction.toNat : GuideAction → Nat
  | GA_NONE => 0
  | GA_BREAK => 1
  | GA_FORWARD => 2
  | GA_REVERSE => 3

/-- Result codes returned by the start operations. -/
inductive CommandError where
  | CE_NONE
  | CE_SLEW_ERR_HARDWARE_FAULT
  | CE_SLEW_ERR_IN_PARK
  | CE_SLEW_IN_MOTION
  | CE_SLEW_ERR_OUTSIDE_LIMITS
  deriving DecidableEq, Repr

open CommandError

/-- Direction argument of `Axis::autoSlew`. -/
inductive Direction where
  | DIR_FORWARD
  | DIR_REVERSE
  deriving DecidableEq, Repr

open Direction

/-- Park state; only `PS_PARKED` is named by the source, the other values of the
enumeration of `Mount.h` are collapsed. -/
inductive ParkState where
  | PS_PARKED
  | PS_NOT_PARKED
  deriving DecidableEq, Repr

/-- Goto state; only `GS_NONE` is named by the source, the other values are collapsed. -/
inductive GotoState where
  | GS_NONE
  | GS_ACTIVE
  deriving DecidableEq, Repr

/-- Meridian flip policy; only `MF_NEVER` is named by the source. -/
inductive MeridianFlip where
  | MF_NEVER
  | MF_ENABLED
  deriving DecidableEq, Repr

/-- Pier side; the source names `PIER_SIDE_EAST` and `PIER_SIDE_WEST`. -/
inductive PierSide where
  | PIER_SIDE_NONE
  | PIER_SIDE_EAST
  | PIER_SIDE_WEST
  deriving DecidableEq, Repr

/-- Mount type; only `ALTAZM` is named by the source. -/
inductive MountType where
  | ALTAZM
  | EQUATORIAL
  deriving DecidableEq, Repr

open ParkState GotoState MeridianFlip PierSide MountType

/-- Modelled from the spec: the enumeration `GuideRateSelect` is declared in `Mount.h`; a
selector is its numeric value, a `Nat`, and quarter, half and 1x are the three selectors
below `3`. -/
abbrev GR_QUARTER : Nat := 0
/-- Selector for half the sidereal rate. -/
abbrev GR_HALF : Nat := 1
/-- Selector for the sidereal rate. -/
abbrev GR_1X : Nat := 2
/-- Selector for twice the sidereal rate. -/
abbrev GR_2X : Nat := 3
/-- Selector for 4x. -/
abbrev GR_4X : Nat := 4
/-- Selector for 8x. -/
abbrev GR_8X : Nat := 5
/-- Selector for 20x. -/
abbrev GR_20X : Nat := 6
/-- Selector for 48x. -/
abbrev GR_48X : Nat := 7
/-- Selector for half of the maximum rate. -/
abbrev GR_HALF_MAX : Nat := 8
/-- Selector for the maximum rate. -/
abbrev GR_MAX : Nat := 9
/-- Selector for the custom rate. -/
abbrev GR_CUSTOM : Nat := 10

/-- Commands sent to collaborators, in the order they are issued. -/
inductive Command where
  | updateTrackingRates
  | setFrequencyMax (axis : Nat) (freq : ℚ)
  | autoSlew (axis : Nat) (dir : Direction)
  | autoSlewStop (axis : Nat)
  deriving DecidableEq, Repr

/-- What the code reads from one `Axis` object. -/
structure Axis where
  /-- Field `error.driverFault`. -/
  driverFault : Bool
  /-- Field `error.motorFault`. -/
  motorFault : Bool
  /-- Result of `motionError()`. -/
  motionError : Bool
  /-- Result of `autoSlewActive()`. -/
  autoSlewActive : Bool
  /-- Field `settings.limits.min`. -/
  limitsMin : ℚ
  /-- Field `settings.limits.max`. -/
  limitsMax : ℚ
  /-- Result of `getStepsPerMeasure()`. -/
  stepsPerMeasure : ℚ
  /-- Result of `getInstrumentCoordinate()`. -/
  instrumentCoordinate : ℚ

/-- The part of a `Coordinate` that the validators read. -/
structure Coordinate where
  /-- Hour angle. -/
  h : ℚ
  /-- Declination. -/
  d : ℚ
  /-- Altitude. -/
  a : ℚ
  /-- Pier side. -/
  pierSide : PierSide
  deriving DecidableEq, Repr

/-- The member `limits` of the mount. -/
structure Limits where
  /-- Field `pastMeridianE`. -/
  pastMeridianE : ℚ
  /-- Field `pastMeridianW`. -/
  pastMeridianW : ℚ
  /-- Field `altitude.min`. -/
  altitudeMin : ℚ
  /-- Field `altitude.max`. -/
  altitudeMax : ℚ

/-- Everything the guiding code reads and does not write: hardware flags, mount
settings, the clock, and the collaborators whose code is not part of this file
(`degToRad`, `updatePosition`, `transform.equToHor`, the default value of the
parameter `axis` of `guideRateSelectToRate`, the setting `AXIS2_TANGENT_ARM`). -/
structure Env where
  /-- Object `axis1`. -/
  axis1 : Axis
  /-- Object `axis2`. -/
  axis2 : Axis
  /-- Member `parkState`. -/
  parkState : ParkState
  /-- Member `gotoState`. -/
  gotoState : GotoState
  /-- Result of `anyError()`. -/
  anyError : Bool
  /-- Member `limitsEnabled`. -/
  limitsEnabled : Bool
  /-- Member `meridianFlip`. -/
  meridianFlip : MeridianFlip
  /-- Member `limits`. -/
  limits : Limits
  /-- Member `transform.mountType`. -/
  mountType : MountType
  /-- Whether `AXIS2_TANGENT_ARM == ON`. -/
  tangentArm : Bool
  /-- Member `misc.usPerStepCurrent`. -/
  usPerStepCurrent : ℚ
  /-- Result of `millis()`, a 32 bit tick counter. -/
  millis : Nat
  /-- The conversion `degToRad`. -/
  degToRad : ℚ → ℚ
  /-- What `updatePosition()` stores into `current`. -/
  updatePosition : Coordinate → Coordinate
  /-- What `transform.equToHor(&current)` stores into `current`. -/
  equToHor : Coordinate → Coordinate
  /-- Default value of the parameter `axis` of `guideRateSelectToRate`. -/
  defaultAxis : Nat

/-- The members of `Mount` written by the guiding code, with the trace of the
commands issued so far. -/
structure Mount where
  /-- Member `guideActionAxis1`. -/
  guideActionAxis1 : GuideAction
  /-- Member `guideRateAxis1`. -/
  guideRateAxis1 : ℚ
  /-- Member `guideFinishTimeAxis1`. -/
  guideFinishTimeAxis1 : Nat
  /-- Member `guideActionAxis2`. -/
  guideActionAxis2 : GuideAction
  /-- Member `guideRateAxis2`. -/
  guideRateAxis2 : ℚ
  /-- Member `guideFinishTimeAxis2`. -/
  guideFinishTimeAxis2 : Nat
  /-- Member `current`. -/
  current : Coordinate
  /-- Commands issued to the collaborators, oldest first. -/
  trace : List Command
  deriving DecidableEq, Repr

/-! ## Machine arithmetic -/

/-- Sum of two `unsigned long` values. -/
def addUL (a b : Nat) : Nat := (a + b) % 4294967296

/-- Difference of two `unsigned long` values. -/
def subUL (a b : Nat) : Nat := (a % 4294967296 + (4294967296 - b % 4294967296)) % 4294967296

/-- The cast `(long)` of an `unsigned long` value. -/
def toLong (x : Nat) : Int :=
  if x % 4294967296 < 2147483648 then (x % 4294967296 : Nat) else (x % 4294967296 : Nat) - 4294967296

/-! ## Assignments and collaborator calls -/

/-- Assignment to `guideActionAxis1`. -/
def setGuideActionAxis1 (a : GuideAction) (m : Mount) : Mount := { m with guideActionAxis1 := a }

/-- Assignment to `guideRateAxis1`. -/
def setGuideRateAxis1 (r : ℚ) (m : Mount) : Mount := { m with guideRateAxis1 := r }

/-- Assignment to `guideFinishTimeAxis1`. -/
def setGuideFinishTimeAxis1 (t : Nat) (m : Mount) : Mount := { m with guideFinishTimeAxis1 := t }

/-- Assignment to `guideActionAxis2`. -/
def setGuideActionAxis2 (a : GuideAction) (m : Mount) : Mount := { m with guideActionAxis2 := a }

/-- Assignment to `guideRateAxis2`. -/
def setGuideRateAxis2 (r : ℚ) (m : Mount) : Mount := { m with guideRateAxis2 := r }

/-- Assignment to `guideFinishTimeAxis2`. -/
def setGuideFinishTimeAxis2 (t : Nat) (m : Mount) : Mount := { m with guideFinishTimeAxis2 := t }

/-- A command is issued to a collaborator: it is recorded at the end of the trace. -/
def issue (c : Command) (m : Mount) : Mount := { m with trace := m.trace ++ [c] }

/-- Call of `updateTrackingRates()`. -/
def updateTrackingRates (m : Mount) : Mount := issue Command.updateTrackingRates m

/-- Call of `axisN.setFrequencyMax(freq)`. -/
def setFrequencyMax (axis : Nat) (freq : ℚ) (m : Mount) : Mount :=
  issue (Command.setFrequencyMax axis freq) m

/-- Call of `axisN.autoSlew(dir)`. -/
def autoSlew (axis : Nat) (dir : Direction) (m : Mount) : Mount :=
  issue (Command.autoSlew axis dir) m

/-- Call of `axisN.autoSlewStop()`. -/
def autoSlewStop (axis : Nat) (m : Mount) : Mount := issue (Command.autoSlewStop axis) m

/-- Call of `updatePosition()`, which refreshes `current`. -/
def updatePosition (e : Env) (m : Mount) : Mount :=
  { m with current := e.updatePosition m.current }

/-- Call of `transform.equToHor(&current)`. -/
def equToHor (e : Env) (m : Mount) : Mount :=
  { m with current := e.equToHor m.current }

/-! ## The functions of `Mount.guide.cpp` -/

/-- `Mount::guideRateSelectToRate`. -/
def guideRateSelectToRate (e : Env) (guideRateSelect : Nat) (axis : Nat) : ℚ :=
  if guideRateSelect = GR_QUARTER then 1 / 4
  else if guideRateSelect = GR_HALF then 1 / 2
  else if guideRateSelect = GR_1X then 1
  else if guideRateSelect = GR_2X then 2
  else if guideRateSelect = GR_4X then 4
  else if guideRateSelect = GR_8X then 8
  else if guideRateSelect = GR_20X then 20
  else if guideRateSelect = GR_48X then 48
  else if guideRateSelect = GR_HALF_MAX then
    (2000000 / e.usPerStepCurrent) / e.degToRad e.axis1.stepsPerMeasure
  else if guideRateSelect = GR_MAX then
    (1000000 / e.usPerStepCurrent) / e.degToRad e.axis1.stepsPerMeasure
  else if guideRateSelect = GR_CUSTOM then
    (if axis = 1 then 48 else if axis = 2 then 48 else 0)
  else 0

/-- `Mount::validGuideAxis1`: the answer and the mount with `current` refreshed. -/
def validGuideAxis1 (e : Env) (m : Mount) (guideAction : GuideAction) : Bool × Mount :=
  if !e.limitsEnabled then (true, m)
  else
    let m1 := updatePosition e m
    if guideAction = GA_FORWARD ∧ (e.meridianFlip ≠ MF_NEVER ∧ m1.current.pierSide = PIER_SIDE_EAST)
        ∧ m1.current.h < -e.limits.pastMeridianE then (false, m1)
    else if guideAction = GA_FORWARD ∧ m1.current.h < e.axis1.limitsMin then (false, m1)
    else if guideAction = GA_REVERSE ∧ (e.meridianFlip ≠ MF_NEVER ∧ m1.current.pierSide = PIER_SIDE_WEST)
        ∧ m1.current.h > e.limits.pastMeridianW then (false, m1)
    else if guideAction = GA_REVERSE ∧ m1.current.h > e.axis1.limitsMax then (false, m1)
    else (true, m1)

/-- `Mount::validGuideAxis2`: the answer and the mount with `current` refreshed. -/
def validGuideAxis2 (e : Env) (m : Mount) (guideAction : GuideAction) : Bool × Mount :=
  if !e.limitsEnabled then (true, m)
  else
    let m1 := equToHor e (updatePosition e m)
    let a2 : ℚ :=
      if e.tangentArm then e.axis2.instrumentCoordinate
      else if e.mountType = ALTAZM then m1.current.a else m1.current.d
    if guideAction = GA_FORWARD ∧ (a2 < e.axis2.limitsMin ∧ m1.current.pierSide = PIER_SIDE_WEST) then
      (false, m1)
    else if guideAction = GA_FORWARD ∧ (a2 > e.axis2.limitsMax ∧ m1.current.pierSide = PIER_SIDE_EAST) then
      (false, m1)
    else if guideAction = GA_FORWARD ∧ (e.mountType = ALTAZM ∧ m1.current.a > e.limits.altitudeMax) then
      (false, m1)
    else if guideAction = GA_REVERSE ∧ (a2 < e.axis2.limitsMin ∧ m1.current.pierSide = PIER_SIDE_EAST) then
      (false, m1)
    else if guideAction = GA_REVERSE ∧ (a2 > e.axis2.limitsMax ∧ m1.current.pierSide = PIER_SIDE_WEST) then
      (false, m1)
    else if guideAction = GA_REVERSE ∧ (e.mountType = ALTAZM ∧ m1.current.a < e.limits.altitudeMin) then
      (false, m1)
    else (true, m1)

/-- `Mount::isSpiralGuiding`. -/
def isSpiralGuiding : Bool := false

/-- Lines 84 to 101 of `Mount::startGuideAxis1`, reached when every check has passed:
the action is recorded, the rate resolved, offset mode or slew mode engaged and the
finish time computed. -/
def engageGuideAxis1 (e : Env) (m : Mount) (guideAction : GuideAction)
    (guideRateSelect : Nat) (guideTimeLimit : Nat) : Mount :=
  let m2 := setGuideActionAxis1 guideAction m
  let rate := guideRateSelectToRate e guideRateSelect e.defaultAxis
  let m3 :=
    if rate ≤ 2 then
      updateTrackingRates
        (setGuideRateAxis1 (if guideAction = GA_REVERSE then -rate else rate) m2)
    else
      autoSlew 1 (if guideAction = GA_REVERSE then DIR_REVERSE else DIR_FORWARD)
        (setFrequencyMax 1 (e.degToRad (rate / 240)) m2)
  let limit := if guideTimeLimit = 0 then 4294967295 else guideTimeLimit
  setGuideFinishTimeAxis1 (addUL e.millis limit) m3

/-- `Mount::startGuideAxis1`: the result code and the mount afterwards. -/
def startGuideAxis1 (e : Env) (m : Mount) (guideAction : GuideAction)
    (guideRateSelect : Nat) (guideTimeLimit : Nat) : CommandError × Mount :=
  if guideAction = GA_NONE ∨ m.guideActionAxis1 = guideAction then (CE_NONE, m)
  else if e.axis1.driverFault || e.axis1.motorFault then (CE_SLEW_ERR_HARDWARE_FAULT, m)
  else if e.parkState = PS_PARKED then (CE_SLEW_ERR_IN_PARK, m)
  else if e.gotoState ≠ GS_NONE then (CE_SLEW_IN_MOTION, m)
  else if isSpiralGuiding then (CE_SLEW_IN_MOTION, m)
  else if !(validGuideAxis1 e m guideAction).1 then
    (CE_SLEW_ERR_OUTSIDE_LIMITS, (validGuideAxis1 e m guideAction).2)
  else if guideRateSelect < 3 ∧ e.anyError then
    (CE_SLEW_ERR_OUTSIDE_LIMITS, (validGuideAxis1 e m guideAction).2)
  else if guideRateSelect < 3 ∧ e.axis1.motionError then
    (CE_SLEW_ERR_OUTSIDE_LIMITS, (validGuideAxis1 e m guideAction).2)
  else
    (CE_NONE,
      engageGuideAxis1 e (validGuideAxis1 e m guideAction).2 guideAction guideRateSelect
        guideTimeLimit)

/-- Lines 118 to 135 of `Mount::startGuideAxis2`, reached when every check has passed. -/
def engageGuideAxis2 (e : Env) (m : Mount) (guideAction : GuideAction)
    (guideRateSelect : Nat) (guideTimeLimit : Nat) : Mount :=
  let m2 := setGuideActionAxis2 guideAction m
  let rate := guideRateSelectToRate e guideRateSelect e.defaultAxis
  let m3 :=
    if rate ≤ 2 then
      updateTrackingRates
        (setGuideRateAxis2 (if guideAction = GA_REVERSE then -rate else rate) m2)
    else
      autoSlew 2 (if guideAction = GA_REVERSE then DIR_REVERSE else DIR_FORWARD)
        (setFrequencyMax 2 (e.degToRad (rate / 240)) m2)
  let limit := if guideTimeLimit = 0 then 4294967295 else guideTimeLimit
  setGuideFinishTimeAxis2 (addUL e.millis limit) m3

/-- `Mount::startGuideAxis2`: the result code and the mount afterwards. -/
def startGuideAxis2 (e : Env) (m : Mount) (guideAction : GuideAction)
    (guideRateSelect : Nat) (guideTimeLimit : Nat) : CommandError × Mount :=
  if guideAction = GA_NONE ∨ m.guideActionAxis2 = guideAction then (CE_NONE, m)
  else if e.axis2.driverFault || e.axis2.motorFault then (CE_SLEW_ERR_HARDWARE_FAULT, m)
  else if e.parkState = PS_PARKED then (CE_SLEW_ERR_IN_PARK, m)
  else if e.gotoState ≠ GS_NONE then (CE_SLEW_IN_MOTION, m)
  else if isSpiralGuiding then (CE_SLEW_IN_MOTION, m)
  else if !(validGuideAxis2 e m guideAction).1 then
    (CE_SLEW_ERR_OUTSIDE_LIMITS, (validGuideAxis2 e m guideAction).2)
  else if guideRateSelect < 3 ∧ e.anyError then
    (CE_SLEW_ERR_OUTSIDE_LIMITS, (validGuideAxis2 e m guideAction).2)
  else if guideRateSelect < 3 ∧ e.axis2.motionError then
    (CE_SLEW_ERR_OUTSIDE_LIMITS, (validGuideAxis2 e m guideAction).2)
  else
    (CE_NONE,
      engageGuideAxis2 e (validGuideAxis2 e m guideAction).2 guideAction guideRateSelect
        guideTimeLimit)

/-- `Mount::stopGuideAxis1`. -/
def stopGuideAxis1 (m : Mount) : Mount :=
  if m.guideActionAxis1.toNat > GA_BREAK.toNat then
    if m.guideRateAxis1 = 0 then
      autoSlewStop 1 (setGuideActionAxis1 GA_BREAK m)
    else
      updateTrackingRates (setGuideRateAxis1 0 (setGuideActionAxis1 GA_NONE m))
  else m

/-- `Mount::stopGuideAxis2`. -/
def stopGuideAxis2 (m : Mount) : Mount :=
  if m.guideActionAxis2.toNat > GA_BREAK.toNat then
    if m.guideRateAxis2 = 0 then
      autoSlewStop 2 (setGuideActionAxis2 GA_BREAK m)
    else
      updateTrackingRates (setGuideRateAxis2 0 (setGuideActionAxis2 GA_NONE m))
  else m

/-- The first half of `Mount::pollGuides`, which handles axis1. -/
def pollGuideAxis1 (e : Env) (m : Mount) : Mount :=
  if m.guideActionAxis1 = GA_BREAK ∧ m.guideRateAxis1 = 0 ∧ e.axis1.autoSlewActive = false then
    updateTrackingRates (setGuideActionAxis1 GA_NONE m)
  else if m.guideActionAxis1.toNat > GA_BREAK.toNat
      ∧ 0 ≤ toLong (subUL e.millis m.guideFinishTimeAxis1) then
    stopGuideAxis1 m
  else m

/-- The second half of `Mount::pollGuides`, which handles axis2. -/
def pollGuideAxis2 (e : Env) (m : Mount) : Mount :=
  if m.guideActionAxis2 = GA_BREAK ∧ m.guideRateAxis2 = 0 ∧ e.axis2.autoSlewActive = false then
    updateTrackingRates (setGuideActionAxis2 GA_NONE m)
  else if m.guideActionAxis2.toNat > GA_BREAK.toNat
      ∧ 0 ≤ toLong (subUL e.millis m.guideFinishTimeAxis2) then
    stopGuideAxis2 m
  else m

/-- `Mount::pollGuides`: axis1, then axis2. -/
def pollGuides (e : Env) (m : Mount) : Mount :=
  pollGuideAxis2 e (pollGuideAxis1 e m)

/-! ## Both axes at once

The code for axis2 is a copy of the code for axis1; the definitions below select
one of the two copies so that a property can be stated once for either axis. -/

/-- The two guided axes. -/
inductive AxisId where
  | axis1
  | axis2
  deriving DecidableEq, Repr

/-- Number under which the axis appears in the trace. -/
def AxisId.number : AxisId → Nat
  | .axis1 => 1
  | .axis2 => 2

/-- The `Axis` object of an axis. -/
def Env.axis (e : Env) : AxisId → Axis
  | .axis1 => e.axis1
  | .axis2 => e.axis2

/-- Session field `action` of an axis: `guideActionAxis1` or `guideActionAxis2`. -/
def Mount.guideAction (m : Mount) : AxisId → GuideAction
  | .axis1 => m.guideActionAxis1
  | .axis2 => m.guideActionAxis2

/-- Session field `offsetRate` of an axis: `guideRateAxis1` or `guideRateAxis2`. -/
def Mount.guideRate (m : Mount) : AxisId → ℚ
  | .axis1 => m.guideRateAxis1
  | .axis2 => m.guideRateAxis2

/-- Session field `deadline` of an axis: `guideFinishTimeAxis1` or `guideFinishTimeAxis2`. -/
def Mount.guideFinishTime (m : Mount) : AxisId → Nat
  | .axis1 => m.guideFinishTimeAxis1
  | .axis2 => m.guideFinishTimeAxis2

/-- The limit validator of an axis. -/
def validGuide : AxisId → Env → Mount → GuideAction → Bool × Mount
  | .axis1 => validGuideAxis1
  | .axis2 => validGuideAxis2

/-- The start operation of an axis. -/
def startGuide : AxisId → Env → Mount → GuideAction → Nat → Nat → CommandError × Mount
  | .axis1 => startGuideAxis1
  | .axis2 => startGuideAxis2

/-- The stop operation of an axis. -/
def stopGuide : AxisId → Mount → Mount
  | .axis1 => stopGuideAxis1
  | .axis2 => stopGuideAxis2

/-- The half of `pollGuides` that handles an axis. -/
def pollGuide : AxisId → Env → Mount → Mount
  | .axis1 => pollGuideAxis1
  | .axis2 => pollGuideAxis2

/-- Direction of the automatic slew that a start with the given action commands. -/
def slewDirection (guideAction : GuideAction) : Direction :=
  if guideAction = GA_REVERSE then DIR_REVERSE else DIR_FORWARD

/-! ## Vocabulary of the specification -/

/-- Elapsed ticks between a start at tick `s` and a poll at tick `now`, modulo `2^32`. -/
def elapsed (now s : Nat) : Nat := subUL now s

/-- The action is forward or reverse: the session is actively guiding. -/
def isGuiding (a : GuideAction) : Bool := a = GA_FORWARD ∨ a = GA_REVERSE

/-- Offset-mode active: `offsetRate != 0`. -/
def offsetModeActive (m : Mount) (ax : AxisId) : Bool := m.guideRate ax ≠ 0

/-- Offset-mode active together with the action it belongs to: action forward or
reverse and `offsetRate != 0`. -/
def offsetModeGuiding (m : Mount) (ax : AxisId) : Bool :=
  isGuiding (m.guideAction ax) ∧ m.guideRate ax ≠ 0

/-- Slew-mode active: action forward or reverse and `offsetRate == 0`. -/
def slewModeActive (m : Mount) (ax : AxisId) : Bool :=
  isGuiding (m.guideAction ax) ∧ m.guideRate ax = 0

/-- Idle: action none and `offsetRate == 0`. -/
def isIdle (m : Mount) (ax : AxisId) : Bool :=
  m.guideAction ax = GA_NONE ∧ m.guideRate ax = 0

/-- Stopping: action break and `offsetRate == 0`. -/
def isStopping (m : Mount) (ax : AxisId) : Bool :=
  m.guideAction ax = GA_BREAK ∧ m.guideRate ax = 0

/-- Exactly one of the listed conditions holds. -/
def exactlyOne (conditions : List Bool) : Bool := conditions.count true = 1

/-- The result of start as the specification lists it: the error of the first
failing precondition, in the order no-op, fault, park, motion, limits, slow-tier error. -/
def firstFailingPrecondition (noop fault parked inMotion limitsOk slowTier errorFlag : Bool) :
    CommandError :=
  if noop then CE_NONE
  else if fault then CE_SLEW_ERR_HARDWARE_FAULT
  else if parked then CE_SLEW_ERR_IN_PARK
  else if inMotion then CE_SLEW_IN_MOTION
  else if !limitsOk then CE_SLEW_ERR_OUTSIDE_LIMITS
  else if slowTier && errorFlag then CE_SLEW_ERR_OUTSIDE_LIMITS
  else CE_NONE

/-- States reachable from two idle sessions by start, stop and poll calls under
arbitrary inputs; `allowed` delimits the actions that a start may request. Time
limits and clock readings are 32 bit values. -/
inductive Reachable (allowed : GuideAction → Prop) : Mount → Prop where
  | init (m : Mount) : m.guideActionAxis1 = GA_NONE → m.guideRateAxis1 = 0 →
      m.guideActionAxis2 = GA_NONE → m.guideRateAxis2 = 0 → Reachable allowed m
  | start (ax : AxisId) (e : Env) (m : Mount) (a : GuideAction) (sel : Nat) (T : Nat) :
      Reachable allowed m → allowed a → T < 4294967296 → e.millis < 4294967296 →
      Reachable allowed (startGuide ax e m a sel T).2
  | stop (ax : AxisId) (m : Mount) : Reachable allowed m → Reachable allowed (stopGuide ax m)
  | poll (e : Env) (m : Mount) : Reachable allowed m → e.millis < 4294967296 →
      Reachable allowed (pollGuides e m)

/-! ## Sample inputs -/

/-- An axis without faults, limits at plus and minus 90. -/
def sampleAxis : Axis :=
  { driverFault := false, motorFault := false, motionError := false, autoSlewActive := false,
    limitsMin := -90, limitsMax := 90, stepsPerMeasure := 12800, instrumentCoordinate := 0 }

/-- A position well inside all limits. -/
def sampleCoordinate : Coordinate := { h := 0, d := 0, a := 45, pierSide := PIER_SIDE_EAST }

/-- A healthy equatorial mount at clock reading `now`: no fault, not parked, no goto,
limits enabled and satisfied. -/
def sampleEnv (now : Nat) : Env :=
  { axis1 := sampleAxis, axis2 := sampleAxis, parkState := PS_NOT_PARKED, gotoState := GS_NONE,
    anyError := false, limitsEnabled := true, meridianFlip := MF_ENABLED,
    limits := { pastMeridianE := 15, pastMeridianW := 15, altitudeMin := -10, altitudeMax := 85 },
    mountType := EQUATORIAL, tangentArm := false, usPerStepCurrent := 64, millis := now,
    degToRad := fun x => x * 157 / 9000, updatePosition := fun c => c, equToHor := fun c => c,
    defaultAxis := 1 }

/-- The healthy mount of `sampleEnv`, parked. -/
def parkedEnv (now : Nat) : Env := { sampleEnv now with parkState := PS_PARKED }

/-- The healthy mount of `sampleEnv` while the automatic slews of both axes are running. -/
def slewingEnv (now : Nat) : Env :=
  { sampleEnv now with
    axis1 := { sampleAxis with autoSlewActive := true },
    axis2 := { sampleAxis with autoSlewActive := true } }

/-- Both sessions idle, nothing commanded yet. -/
def idleMount : Mount :=
  { guideActionAxis1 := GA_NONE, guideRateAxis1 := 0, guideFinishTimeAxis1 := 0,
    guideActionAxis2 := GA_NONE, guideRateAxis2 := 0, guideFinishTimeAxis2 := 0,
    current := sampleCoordinate, trace := [] }

/-! ## Vocabulary of the specification: traces and limit validators -/

/-- Whether a trace leaves the automatic slew of an axis running: the last `autoSlew`
of the axis is not followed by an `autoSlewStop` of the axis. It is false exactly when
every `autoSlew` of the axis in the trace has been followed by an `autoSlewStop`. -/
def slewLeftRunning (axis : Nat) (trace : List Command) : Bool :=
  trace.foldl
    (fun running c =>
      match c with
      | Command.autoSlew n _ => if n = axis then true else running
      | Command.autoSlewStop n => if n = axis then false else running
      | _ => running)
    false

/-- The answer of the axis1 limit validator as the specification words it, for a given
pair of hour angle thresholds: true when limit enforcement is disabled; forward is
refused iff (meridian flip not never, pier side east, hour angle below the east
threshold) or the hour angle is below the axis minimum; reverse is refused iff (meridian
flip not never, pier side west, hour angle above the west threshold) or the hour angle
is above the axis maximum; any other action is allowed. -/
def validGuideAxis1Spec (limitsEnabled : Bool) (meridianFlip : MeridianFlip)
    (pierSide : PierSide) (h eastThreshold westThreshold axisMin axisMax : ℚ)
    (guideAction : GuideAction) : Bool :=
  if !limitsEnabled then true
  else
    match guideAction with
    | GA_FORWARD =>
      !decide ((meridianFlip ≠ MF_NEVER ∧ pierSide = PIER_SIDE_EAST ∧ h < eastThreshold)
        ∨ h < axisMin)
    | GA_REVERSE =>
      !decide ((meridianFlip ≠ MF_NEVER ∧ pierSide = PIER_SIDE_WEST ∧ h > westThreshold)
        ∨ h > axisMax)
    | _ => true

/-- The answer of the axis2 limit validator as the specification words it, for the
coordinate `c` of the axis: true when limit enforcement is disabled; forward is refused
iff (`c` below the axis minimum and pier side west) or (`c` above the axis maximum and
pier side east) or (altazimuth mount and altitude above the altitude maximum); reverse
is refused iff (`c` below the minimum and pier side east) or (`c` above the maximum and
pier side west) or (altazimuth mount and altitude below the altitude minimum); any other
action is allowed. -/
def validGuideAxis2Spec (limitsEnabled : Bool) (mountType : MountType) (pierSide : PierSide)
    (c altitude axisMin axisMax altitudeMin altitudeMax : ℚ) (guideAction : GuideAction) :
    Bool :=
  if !limitsEnabled then true
  else
    match guideAction with
    | GA_FORWARD =>
      !decide ((c < axisMin ∧ pierSide = PIER_SIDE_WEST) ∨ (c > axisMax ∧ pierSide = PIER_SIDE_EAST)
        ∨ (mountType = ALTAZM ∧ altitude > altitudeMax))
    | GA_REVERSE =>
      !decide ((c < axisMin ∧ pierSide = PIER_SIDE_EAST) ∨ (c > axisMax ∧ pierSide = PIER_SIDE_WEST)
        ∨ (mountType = ALTAZM ∧ altitude < altitudeMin))
    | _ => true

/-- The coordinate of axis2 that the specification names: the instrument coordinate of
axis2 under tangent-arm geometry, else the altitude for an altazimuth mount, else the
declination. -/
def axis2Coordinate (e : Env) (c : Coordinate) : ℚ :=
  if e.tangentArm then e.axis2.instrumentCoordinate
  else if e.mountType = ALTAZM then c.a else c.d

/-! ## One text for both axes

The names in which the code for axis1 and the code for axis2 differ, and the code
written once over these names. -/

/-- The names that differ between the two copies of the code: the number and the
object of the axis, its three session fields, and its limit validator. -/
structure AxisNames where
  /-- Number of the axis in the trace. -/
  number : Nat
  /-- The object `axis1` or `axis2`. -/
  axis : Env → Axis
  /-- Reading `guideActionAxisN`. -/
  guideAction : Mount → GuideAction
  /-- Reading `guideRateAxisN`. -/
  guideRate : Mount → ℚ
  /-- Reading `guideFinishTimeAxisN`. -/
  guideFinishTime : Mount → Nat
  /-- Assignment to `guideActionAxisN`. -/
  setGuideAction : GuideAction → Mount → Mount
  /-- Assignment to `guideRateAxisN`. -/
  setGuideRate : ℚ → Mount → Mount
  /-- Assignment to `guideFinishTimeAxisN`. -/
  setGuideFinishTime : Nat → Mount → Mount
  /-- The validator `validGuideAxisN`. -/
  validGuide : Env → Mount → GuideAction → Bool × Mount

/-- The names of the copy for axis1. -/
def namesAxis1 : AxisNames :=
  { number := 1, axis := Env.axis1, guideAction := Mount.guideActionAxis1,
    guideRate := Mount.guideRateAxis1, guideFinishTime := Mount.guideFinishTimeAxis1,
    setGuideAction := setGuideActionAxis1, setGuideRate := setGuideRateAxis1,
    setGuideFinishTime := setGuideFinishTimeAxis1, validGuide := validGuideAxis1 }

/-- The names of the copy for axis2. -/
def namesAxis2 : AxisNames :=
  { number := 2, axis := Env.axis2, guideAction := Mount.guideActionAxis2,
    guideRate := Mount.guideRateAxis2, guideFinishTime := Mount.guideFinishTimeAxis2,
    setGuideAction := setGuideActionAxis2, setGuideRate := setGuideRateAxis2,
    setGuideFinishTime := setGuideFinishTimeAxis2, validGuide := validGuideAxis2 }

/-- The body of `startGuideAxisN` after the checks, over the names of an axis. -/
def engageGuideTemplate (n : AxisNames) (e : Env) (m : Mount) (guideAction : GuideAction)
    (guideRateSelect : Nat) (guideTimeLimit : Nat) : Mount :=
  let m2 := n.setGuideAction guideAction m
  let rate := guideRateSelectToRate e guideRateSelect e.defaultAxis
  let m3 :=
    if rate ≤ 2 then
      updateTrackingRates
        (n.setGuideRate (if guideAction = GA_REVERSE then -rate else rate) m2)
    else
      autoSlew n.number (if guideAction = GA_REVERSE then DIR_REVERSE else DIR_FORWARD)
        (setFrequencyMax n.number (e.degToRad (rate / 240)) m2)
  let limit := if guideTimeLimit = 0 then 4294967295 else guideTimeLimit
  n.setGuideFinishTime (addUL e.millis limit) m3

/-- The code of `startGuideAxisN`, over the names of an axis. -/
def startGuideTemplate (n : AxisNames) (e : Env) (m : Mount) (guideAction : GuideAction)
    (guideRateSelect : Nat) (guideTimeLimit : Nat) : CommandError × Mount :=
  if guideAction = GA_NONE ∨ n.guideAction m = guideAction then (CE_NONE, m)
  else if (n.axis e).driverFault || (n.axis e).motorFault then (CE_SLEW_ERR_HARDWARE_FAULT, m)
  else if e.parkState = PS_PARKED then (CE_SLEW_ERR_IN_PARK, m)
  else if e.gotoState ≠ GS_NONE then (CE_SLEW_IN_MOTION, m)
  else if isSpiralGuiding then (CE_SLEW_IN_MOTION, m)
  else if !(n.validGuide e m guideAction).1 then
    (CE_SLEW_ERR_OUTSIDE_LIMITS, (n.validGuide e m guideAction).2)
  else if guideRateSelect < 3 ∧ e.anyError then
    (CE_SLEW_ERR_OUTSIDE_LIMITS, (n.validGuide e m guideAction).2)
  else if guideRateSelect < 3 ∧ (n.axis e).motionError then
    (CE_SLEW_ERR_OUTSIDE_LIMITS, (n.validGuide e m guideAction).2)
  else
    (CE_NONE,
      engageGuideTemplate n e (n.validGuide e m guideAction).2 guideAction guideRateSelect
        guideTimeLimit)

/-- The code of `stopGuideAxisN`, over the names of an axis. -/
def stopGuideTemplate (n : AxisNames) (m : Mount) : Mount :=
  if (n.guideAction m).toNat > GA_BREAK.toNat then
    if n.guideRate m = 0 then
      autoSlewStop n.number (n.setGuideAction GA_BREAK m)
    else
      updateTrackingRates (n.setGuideRate 0 (n.setGuideAction GA_NONE m))
  else m

/-- The code of one half of `pollGuides`, over the names of an axis. -/
def pollGuideTemplate (n : AxisNames) (e : Env) (m : Mount) : Mount :=
  if n.guideAction m = GA_BREAK ∧ n.guideRate m = 0 ∧ (n.axis e).autoSlewActive = false then
    updateTrackingRates (n.setGuideAction GA_NONE m)
  else if (n.guideAction m).toNat > GA_BREAK.toNat
      ∧ 0 ≤ toLong (subUL e.millis (n.guideFinishTime m)) then
    stopGuideTemplate n m
  else m

/-- The session fields of both axes: what the two orders of polling are compared on. -/
def sessions (m : Mount) : (GuideAction × ℚ × Nat) × (GuideAction × ℚ × Nat) :=
  ((m.guideActionAxis1, m.guideRateAxis1, m.guideFinishTimeAxis1),
    (m.guideActionAxis2, m.guideRateAxis2, m.guideFinishTimeAxis2))

/-! ## Consistency of a session with the trace -/

/-- The session of an axis is consistent with the trace: an action that is not
forward or reverse has offset rate 0, and an automatic slew of the axis is left
running by the trace only while the action is forward or reverse with offset rate 0. -/
def sessionConsistent (m : Mount) (ax : AxisId) : Prop :=
  (isGuiding (m.guideAction ax) = false → m.guideRate ax = 0)
    ∧ (slewLeftRunning ax.number m.trace = true →
        isGuiding (m.guideAction ax) = true ∧ m.guideRate ax = 0)

/-- States reachable from two idle sessions with an empty trace when a start, with
requested action forward or reverse, is only issued for an axis whose action is none. -/
inductive ReachableStartingIdle : Mount → Prop where
  | init (m : Mount) : m.guideActionAxis1 = GA_NONE → m.guideRateAxis1 = 0 →
      m.guideActionAxis2 = GA_NONE → m.guideRateAxis2 = 0 → m.trace = [] →
      ReachableStartingIdle m
  | start (ax : AxisId) (e : Env) (m : Mount) (a : GuideAction) (sel : Nat) (T : Nat) :
      ReachableStartingIdle m → m.guideAction ax = GA_NONE → (a = GA_FORWARD ∨ a = GA_REVERSE) →
      T < 4294967296 → e.millis < 4294967296 →
      ReachableStartingIdle (startGuide ax e m a sel T).2
  | stop (ax : AxisId) (m : Mount) : ReachableStartingIdle m →
      ReachableStartingIdle (stopGuide ax m)
  | poll (e : Env) (m : Mount) : ReachableStartingIdle m → e.millis < 4294967296 →
      ReachableStartingIdle (pollGuides e m)

/-! # Theorems -/

/-! ## Machine arithmetic lemmas -/

theorem toLong_nonneg_iff (x : Nat) (hx : x < 4294967296) : 0 ≤ toLong x ↔ x < 2147483648 := by
  unfold toLong
  rw [Nat.mod_eq_of_lt hx]
  split <;> omega

theorem subUL_lt (a b : Nat) : subUL a b < 4294967296 := by
  unfold subUL; omega

theorem subUL_addUL (now s T : Nat) (hs : s < 4294967296) (hT : T < 4294967296) :
    subUL now (addUL s T) = (subUL now s + (4294967296 - T)) % 4294967296 := by
  unfold subUL addUL; omega

/-- The deadline test of the poller, in terms of the elapsed time: with a start at tick
`s` and a limit `T`, the test succeeds exactly when `elapsed - T` modulo `2^32` is
below `2^31`. -/
theorem deadline_test (now s T : Nat) (hs : s < 4294967296) (hT : T < 4294967296) :
    0 ≤ toLong (subUL now (addUL s T))
      ↔ (elapsed now s + (4294967296 - T)) % 4294967296 < 2147483648 := by
  rw [toLong_nonneg_iff _ (subUL_lt _ _), subUL_addUL now s T hs hT]
  rfl

/-! ## Forward and reverse are the actions above `GA_BREAK` -/

theorem toNat_gt_break_iff (a : GuideAction) :
    a.toNat > GA_BREAK.toNat ↔ isGuiding a = true := by
  cases a <;> decide

theorem isGuiding_iff (a : GuideAction) : isGuiding a = true ↔ a = GA_FORWARD ∨ a = GA_REVERSE := by
  cases a <;> decide

/-! ## The validators only write `current` -/

theorem validGuideAxis1_snd (e : Env) (m : Mount) (a : GuideAction) :
    (validGuideAxis1 e m a).2 = if e.limitsEnabled then updatePosition e m else m := by
  unfold validGuideAxis1
  cases e.limitsEnabled
  · rfl
  · simp only [apply_ite Prod.snd, ite_self, Bool.not_true, Bool.false_eq_true, if_false, if_true]

theorem validGuideAxis2_snd (e : Env) (m : Mount) (a : GuideAction) :
    (validGuideAxis2 e m a).2 = if e.limitsEnabled then equToHor e (updatePosition e m) else m := by
  unfold validGuideAxis2
  cases e.limitsEnabled
  · rfl
  · simp only [apply_ite Prod.snd, ite_self, Bool.not_true, Bool.false_eq_true, if_false, if_true]

theorem validGuideAxis1_frame (e : Env) (m : Mount) (a : GuideAction) :
    (validGuideAxis1 e m a).2 = { m with current := (validGuideAxis1 e m a).2.current } := by
  rw [validGuideAxis1_snd]; split <;> rfl

theorem validGuideAxis2_frame (e : Env) (m : Mount) (a : GuideAction) :
    (validGuideAxis2 e m a).2 = { m with current := (validGuideAxis2 e m a).2.current } := by
  rw [validGuideAxis2_snd]; split <;> rfl

/-! ## The start operations, case by case -/

theorem engageGuideAxis1_eq (e : Env) (m : Mount) (a : GuideAction) (sel : Nat)
    (T : Nat) :
    engageGuideAxis1 e m a sel T =
      { m with
        guideActionAxis1 := a
        guideRateAxis1 :=
          if guideRateSelectToRate e sel e.defaultAxis ≤ 2 then
            (if a = GA_REVERSE then -guideRateSelectToRate e sel e.defaultAxis
              else guideRateSelectToRate e sel e.defaultAxis)
          else m.guideRateAxis1
        guideFinishTimeAxis1 := addUL e.millis (if T = 0 then 4294967295 else T)
        trace := m.trace ++
          (if guideRateSelectToRate e sel e.defaultAxis ≤ 2 then [Command.updateTrackingRates]
            else [Command.setFrequencyMax 1
                (e.degToRad (guideRateSelectToRate e sel e.defaultAxis / 240)),
              Command.autoSlew 1 (slewDirection a)]) } := by
  unfold engageGuideAxis1
  dsimp only
  split_ifs <;>
    simp [setGuideFinishTimeAxis1, updateTrackingRates, setGuideRateAxis1, setGuideActionAxis1,
      autoSlew, setFrequencyMax, issue, slewDirection, *]

theorem engageGuideAxis2_eq (e : Env) (m : Mount) (a : GuideAction) (sel : Nat)
    (T : Nat) :
    engageGuideAxis2 e m a sel T =
      { m with
        guideActionAxis2 := a
        guideRateAxis2 :=
          if guideRateSelectToRate e sel e.defaultAxis ≤ 2 then
            (if a = GA_REVERSE then -guideRateSelectToRate e sel e.defaultAxis
              else guideRateSelectToRate e sel e.defaultAxis)
          else m.guideRateAxis2
        guideFinishTimeAxis2 := addUL e.millis (if T = 0 then 4294967295 else T)
        trace := m.trace ++
          (if guideRateSelectToRate e sel e.defaultAxis ≤ 2 then [Command.updateTrackingRates]
            else [Command.setFrequencyMax 2
                (e.degToRad (guideRateSelectToRate e sel e.defaultAxis / 240)),
              Command.autoSlew 2 (slewDirection a)]) } := by
  unfold engageGuideAxis2
  dsimp only
  split_ifs <;>
    simp [setGuideFinishTimeAxis2, updateTrackingRates, setGuideRateAxis2, setGuideActionAxis2,
      autoSlew, setFrequencyMax, issue, slewDirection, *]

/-- The three ways a call of `startGuideAxis1` can end: the no-op, a genuine start, a
rejection (which leaves the mount as it was or as the validator left it). -/
theorem startGuideAxis1_cases (e : Env) (m : Mount) (a : GuideAction) (sel : Nat)
    (T : Nat) :
    ((a = GA_NONE ∨ m.guideActionAxis1 = a) ∧ startGuideAxis1 e m a sel T = (CE_NONE, m))
    ∨ (¬ (a = GA_NONE ∨ m.guideActionAxis1 = a)
        ∧ startGuideAxis1 e m a sel T
          = (CE_NONE, engageGuideAxis1 e (validGuideAxis1 e m a).2 a sel T))
    ∨ (¬ (a = GA_NONE ∨ m.guideActionAxis1 = a) ∧ ∃ err, err ≠ CE_NONE
        ∧ (startGuideAxis1 e m a sel T = (err, m)
          ∨ startGuideAxis1 e m a sel T = (err, (validGuideAxis1 e m a).2))) := by
  generalize hr : startGuideAxis1 e m a sel T = r
  unfold startGuideAxis1 at hr
  by_cases hn : a = GA_NONE ∨ m.guideActionAxis1 = a
  · rw [if_pos hn] at hr
    exact Or.inl ⟨hn, hr.symm⟩
  · rw [if_neg hn] at hr
    refine Or.inr ?_
    repeat' split at hr
    all_goals subst hr
    all_goals first
      | exact Or.inl ⟨hn, rfl⟩
      | exact Or.inr ⟨hn, _, by decide, Or.inl rfl⟩
      | exact Or.inr ⟨hn, _, by decide, Or.inr rfl⟩

/-- The three ways a call of `startGuideAxis2` can end. -/
theorem startGuideAxis2_cases (e : Env) (m : Mount) (a : GuideAction) (sel : Nat)
    (T : Nat) :
    ((a = GA_NONE ∨ m.guideActionAxis2 = a) ∧ startGuideAxis2 e m a sel T = (CE_NONE, m))
    ∨ (¬ (a = GA_NONE ∨ m.guideActionAxis2 = a)
        ∧ startGuideAxis2 e m a sel T
          = (CE_NONE, engageGuideAxis2 e (validGuideAxis2 e m a).2 a sel T))
    ∨ (¬ (a = GA_NONE ∨ m.guideActionAxis2 = a) ∧ ∃ err, err ≠ CE_NONE
        ∧ (startGuideAxis2 e m a sel T = (err, m)
          ∨ startGuideAxis2 e m a sel T = (err, (validGuideAxis2 e m a).2))) := by
  generalize hr : startGuideAxis2 e m a sel T = r
  unfold startGuideAxis2 at hr
  by_cases hn : a = GA_NONE ∨ m.guideActionAxis2 = a
  · rw [if_pos hn] at hr
    exact Or.inl ⟨hn, hr.symm⟩
  · rw [if_neg hn] at hr
    refine Or.inr ?_
    repeat' split at hr
    all_goals subst hr
    all_goals first
      | exact Or.inl ⟨hn, rfl⟩
      | exact Or.inr ⟨hn, _, by decide, Or.inl rfl⟩
      | exact Or.inr ⟨hn, _, by decide, Or.inr rfl⟩

/-- The session fields of an axis and the trace, gathered. -/
theorem session_ext (ax : AxisId) (m m' : Mount) (h : m' = { m with current := m'.current }) :
    m'.guideAction ax = m.guideAction ax ∧ m'.guideRate ax = m.guideRate ax
      ∧ m'.guideFinishTime ax = m.guideFinishTime ax ∧ m'.trace = m.trace := by
  rw [h]; cases ax <;> simp [Mount.guideAction, Mount.guideRate, Mount.guideFinishTime]

/-- What a genuine start of an axis leaves behind: the action, the rate, the deadline,
the commands; the fields of the other axis are not touched. -/
theorem startGuide_genuine (ax : AxisId) (e : Env) (m : Mount) (a : GuideAction)
    (sel : Nat) (T : Nat) (hn : ¬ (a = GA_NONE ∨ m.guideAction ax = a))
    (h : (startGuide ax e m a sel T).1 = CE_NONE) :
    (startGuide ax e m a sel T).2.guideAction ax = a
    ∧ (startGuide ax e m a sel T).2.guideRate ax =
        (if guideRateSelectToRate e sel e.defaultAxis ≤ 2 then
          (if a = GA_REVERSE then -guideRateSelectToRate e sel e.defaultAxis
            else guideRateSelectToRate e sel e.defaultAxis)
        else m.guideRate ax)
    ∧ (startGuide ax e m a sel T).2.guideFinishTime ax
        = addUL e.millis (if T = 0 then 4294967295 else T)
    ∧ (startGuide ax e m a sel T).2.trace = m.trace ++
        (if guideRateSelectToRate e sel e.defaultAxis ≤ 2 then [Command.updateTrackingRates]
          else [Command.setFrequencyMax ax.number
              (e.degToRad (guideRateSelectToRate e sel e.defaultAxis / 240)),
            Command.autoSlew ax.number (slewDirection a)]) := by
  cases ax
  · have hv := validGuideAxis1_frame e m a
    rcases startGuideAxis1_cases e m a sel T with ⟨h1, _⟩ | ⟨_, h2⟩ | ⟨_, err, herr, h3 | h3⟩
    · exact absurd h1 hn
    · simp only [startGuide, h2, engageGuideAxis1_eq, Mount.guideAction, Mount.guideRate,
        Mount.guideFinishTime, AxisId.number]
      rw [hv]; simp
    · simp only [startGuide, h3] at h; exact absurd h herr
    · simp only [startGuide, h3] at h; exact absurd h herr
  · have hv := validGuideAxis2_frame e m a
    rcases startGuideAxis2_cases e m a sel T with ⟨h1, _⟩ | ⟨_, h2⟩ | ⟨_, err, herr, h3 | h3⟩
    · exact absurd h1 hn
    · simp only [startGuide, h2, engageGuideAxis2_eq, Mount.guideAction, Mount.guideRate,
        Mount.guideFinishTime, AxisId.number]
      rw [hv]; simp
    · simp only [startGuide, h3] at h; exact absurd h herr
    · simp only [startGuide, h3] at h; exact absurd h herr

/-! ## The stop operations and the poller, case by case -/

theorem stopGuide_idle (ax : AxisId) (m : Mount) (h : isGuiding (m.guideAction ax) = false) :
    stopGuide ax m = m := by
  cases ax <;>
    simp only [stopGuide, stopGuideAxis1, stopGuideAxis2, Mount.guideAction, toNat_gt_break_iff,
      h, Bool.false_eq_true, if_false] at h ⊢

theorem stopGuide_offset (ax : AxisId) (m : Mount) (h : isGuiding (m.guideAction ax) = true)
    (hr : m.guideRate ax ≠ 0) :
    (stopGuide ax m).guideAction ax = GA_NONE ∧ (stopGuide ax m).guideRate ax = 0
      ∧ (stopGuide ax m).guideFinishTime ax = m.guideFinishTime ax
      ∧ (stopGuide ax m).trace = m.trace ++ [Command.updateTrackingRates] := by
  cases ax <;>
    simp_all [stopGuide, stopGuideAxis1, stopGuideAxis2, Mount.guideAction, Mount.guideRate,
      Mount.guideFinishTime, toNat_gt_break_iff, updateTrackingRates, issue, setGuideRateAxis1,
      setGuideActionAxis1, setGuideRateAxis2, setGuideActionAxis2]

theorem stopGuide_slew (ax : AxisId) (m : Mount) (h : isGuiding (m.guideAction ax) = true)
    (hr : m.guideRate ax = 0) :
    (stopGuide ax m).guideAction ax = GA_BREAK ∧ (stopGuide ax m).guideRate ax = 0
      ∧ (stopGuide ax m).guideFinishTime ax = m.guideFinishTime ax
      ∧ (stopGuide ax m).trace = m.trace ++ [Command.autoSlewStop ax.number] := by
  cases ax <;>
    simp_all [stopGuide, stopGuideAxis1, stopGuideAxis2, Mount.guideAction, Mount.guideRate,
      Mount.guideFinishTime, toNat_gt_break_iff, autoSlewStop, issue,
      setGuideActionAxis1, setGuideActionAxis2, AxisId.number]

/-- While the action is forward or reverse the poller of an axis does the deadline
test and nothing else. -/
theorem pollGuide_guiding (ax : AxisId) (e : Env) (m : Mount)
    (h : isGuiding (m.guideAction ax) = true) :
    pollGuide ax e m
      = if 0 ≤ toLong (subUL e.millis (m.guideFinishTime ax)) then stopGuide ax m else m := by
  have hb : m.guideAction ax ≠ GA_BREAK := by
    intro hb; rw [hb] at h; exact absurd h (by decide)
  cases ax <;>
    simp_all [pollGuide, pollGuideAxis1, pollGuideAxis2, stopGuide, Mount.guideAction,
      Mount.guideFinishTime, toNat_gt_break_iff]

/-- Each half of the poller leaves the session fields of the other axis alone. -/
theorem pollGuide_other (ax ax' : AxisId) (e : Env) (m : Mount) (h : ax ≠ ax') :
    (pollGuide ax e m).guideAction ax' = m.guideAction ax'
      ∧ (pollGuide ax e m).guideRate ax' = m.guideRate ax'
      ∧ (pollGuide ax e m).guideFinishTime ax' = m.guideFinishTime ax' := by
  cases ax <;> cases ax' <;> first
    | exact absurd rfl h
    | (simp only [pollGuide, pollGuideAxis1, pollGuideAxis2, stopGuideAxis1, stopGuideAxis2,
        Mount.guideAction, Mount.guideRate, Mount.guideFinishTime]
       split_ifs <;> simp [updateTrackingRates, autoSlewStop, issue, setGuideRateAxis1,
        setGuideActionAxis1, setGuideRateAxis2, setGuideActionAxis2])

/-- The session fields that a half of the poller computes for its own axis depend on
the session fields of that axis only. -/
theorem pollGuide_congr (ax : AxisId) (e : Env) (m m' : Mount)
    (h1 : m'.guideAction ax = m.guideAction ax) (h2 : m'.guideRate ax = m.guideRate ax)
    (h3 : m'.guideFinishTime ax = m.guideFinishTime ax) :
    (pollGuide ax e m').guideAction ax = (pollGuide ax e m).guideAction ax
      ∧ (pollGuide ax e m').guideRate ax = (pollGuide ax e m).guideRate ax
      ∧ (pollGuide ax e m').guideFinishTime ax = (pollGuide ax e m).guideFinishTime ax := by
  cases ax
  · simp only [Mount.guideAction, Mount.guideRate, Mount.guideFinishTime] at h1 h2 h3
    simp only [pollGuide, pollGuideAxis1, stopGuideAxis1, Mount.guideAction, Mount.guideRate,
      Mount.guideFinishTime, h1, h2, h3]
    split_ifs <;> simp [updateTrackingRates, autoSlewStop, issue, setGuideRateAxis1,
      setGuideActionAxis1, h1, h2, h3]
  · simp only [Mount.guideAction, Mount.guideRate, Mount.guideFinishTime] at h1 h2 h3
    simp only [pollGuide, pollGuideAxis2, stopGuideAxis2, Mount.guideAction, Mount.guideRate,
      Mount.guideFinishTime, h1, h2, h3]
    split_ifs <;> simp [updateTrackingRates, autoSlewStop, issue, setGuideRateAxis2,
      setGuideActionAxis2, h1, h2, h3]

/-- After `pollGuides` the session fields of an axis are those computed by the half of
the poller that handles this axis. -/
theorem pollGuides_session (ax : AxisId) (e : Env) (m : Mount) :
    (pollGuides e m).guideAction ax = (pollGuide ax e m).guideAction ax
      ∧ (pollGuides e m).guideRate ax = (pollGuide ax e m).guideRate ax
      ∧ (pollGuides e m).guideFinishTime ax = (pollGuide ax e m).guideFinishTime ax := by
  cases ax
  · exact pollGuide_other .axis2 .axis1 e (pollGuideAxis1 e m) (by decide)
  · obtain ⟨h1, h2, h3⟩ := pollGuide_other .axis1 .axis2 e m (by decide)
    exact pollGuide_congr .axis2 e m (pollGuideAxis1 e m) h1 h2 h3

/-! ## C1 to C3: the deadline -/

/-- Scope of the defect behind C1: after a genuine start with time limit 0 the deadline
is the tick before the start, and every poll whose elapsed time is at most `2^31 - 2`
passes the deadline test and calls stop. -/
theorem timeLimit_zero_expires (ax : AxisId) (e1 e2 : Env) (m : Mount) (a : GuideAction)
    (sel : Nat) (hs : e1.millis < 4294967296)
    (hnoop : ¬ (a = GA_NONE ∨ m.guideAction ax = a))
    (hok : (startGuide ax e1 m a sel 0).1 = CE_NONE)
    (hact : isGuiding a = true)
    (he : elapsed e2.millis e1.millis + 1 < 2147483648) :
    pollGuide ax e2 (startGuide ax e1 m a sel 0).2 = stopGuide ax (startGuide ax e1 m a sel 0).2 := by
  obtain ⟨h1, -, h3, -⟩ := startGuide_genuine ax e1 m a sel 0 hnoop hok
  rw [pollGuide_guiding ax e2 _ (by rw [h1]; exact hact), h3, if_pos]
  rw [if_pos rfl, deadline_test _ _ _ hs (by decide)]
  omega

/-- C1, evaluated on the code: axis1 of an idle healthy mount is started forward at 1x
with time limit 0 at tick 1000, which sets the deadline to tick 999; the poll at the
same tick 1000 (elapsed time 0) passes the deadline test, calls stop and leaves the
action at none. The same happens at elapsed time 1 and for a slew-mode session. -/
theorem C1_timeLimit_zero_stops_at_first_poll :
    (startGuideAxis1 (sampleEnv 1000) idleMount GA_FORWARD GR_1X 0).1 = CE_NONE
    ∧ (startGuideAxis1 (sampleEnv 1000) idleMount GA_FORWARD GR_1X 0).2.guideActionAxis1
        = GA_FORWARD
    ∧ (startGuideAxis1 (sampleEnv 1000) idleMount GA_FORWARD GR_1X 0).2.guideFinishTimeAxis1
        = 999
    ∧ elapsed 1000 1000 = 0
    ∧ pollGuides (sampleEnv 1000) (startGuideAxis1 (sampleEnv 1000) idleMount GA_FORWARD GR_1X 0).2
        = stopGuideAxis1 (startGuideAxis1 (sampleEnv 1000) idleMount GA_FORWARD GR_1X 0).2
    ∧ (pollGuides (sampleEnv 1000)
        (startGuideAxis1 (sampleEnv 1000) idleMount GA_FORWARD GR_1X 0).2).guideActionAxis1
        = GA_NONE
    ∧ (pollGuides (sampleEnv 1001)
        (startGuideAxis1 (sampleEnv 1000) idleMount GA_FORWARD GR_1X 0).2).guideActionAxis1
        = GA_NONE
    ∧ (pollGuides (sampleEnv 1000)
        (startGuideAxis1 (sampleEnv 1000) idleMount GA_FORWARD GR_8X 0).2).guideActionAxis1
        = GA_BREAK := by
  decide

/-- C2: a session of either axis is started at tick `s` with a time limit `T > 0` and
is still forward or reverse with that deadline; a poll at a tick whose elapsed time `e`
since `s` (modulo `2^32`) satisfies `T ≤ e` and `e - T < 2^31` calls stop, also when
`s + T` wraps: afterwards the action is break if the offset rate is 0 (slew mode) and
none otherwise (offset mode). -/
theorem C2_timeout_fires_across_wraparound (ax : AxisId) (e1 e2 : Env) (m m' : Mount)
    (a : GuideAction) (sel : Nat) (T : Nat)
    (hs : e1.millis < 4294967296) (hT0 : 0 < T) (hT : T < 4294967296)
    (hnoop : ¬ (a = GA_NONE ∨ m.guideAction ax = a))
    (hok : (startGuide ax e1 m a sel T).1 = CE_NONE)
    (hdl : m'.guideFinishTime ax = (startGuide ax e1 m a sel T).2.guideFinishTime ax)
    (hact : isGuiding (m'.guideAction ax) = true)
    (hle : T ≤ elapsed e2.millis e1.millis)
    (hlt : elapsed e2.millis e1.millis - T < 2147483648) :
    pollGuide ax e2 m' = stopGuide ax m'
    ∧ (pollGuides e2 m').guideAction ax = (if m'.guideRate ax = 0 then GA_BREAK else GA_NONE)
    ∧ isGuiding ((pollGuides e2 m').guideAction ax) = false := by
  obtain ⟨-, -, h3, -⟩ := startGuide_genuine ax e1 m a sel T hnoop hok
  have hel : elapsed e2.millis e1.millis < 4294967296 := subUL_lt _ _
  have hpoll : pollGuide ax e2 m' = stopGuide ax m' := by
    rw [pollGuide_guiding ax e2 m' hact, hdl, h3, if_pos]
    rw [if_neg (by omega), deadline_test _ _ _ hs hT]
    omega
  have hact2 : (pollGuides e2 m').guideAction ax
      = (if m'.guideRate ax = 0 then GA_BREAK else GA_NONE) := by
    rw [(pollGuides_session ax e2 m').1, hpoll]
    by_cases hr : m'.guideRate ax = 0
    · rw [if_pos hr]; exact (stopGuide_slew ax m' hact hr).1
    · rw [if_neg hr]; exact (stopGuide_offset ax m' hact hr).1
  refine ⟨hpoll, hact2, ?_⟩
  rw [hact2]; split <;> decide

/-- C2 at a start tick 5000 ticks before the counter wraps: limit 10000, poll 10000
ticks after the start, at tick 5000. -/
theorem C2_timeout_fires_across_wraparound_witness :
    (pollGuides (sampleEnv 5000)
        (startGuide .axis1 (sampleEnv 4294962296) idleMount GA_FORWARD GR_8X 10000).2).guideAction
      .axis1 = GA_BREAK :=
  (C2_timeout_fires_across_wraparound .axis1 (sampleEnv 4294962296) (sampleEnv 5000) idleMount
    (startGuide .axis1 (sampleEnv 4294962296) idleMount GA_FORWARD GR_8X 10000).2
    GA_FORWARD GR_8X 10000 (by decide) (by decide) (by decide) (by decide) (by decide) rfl
    (by decide) (by decide) (by decide)).2.1

/-- C3, refuted as stated: a session started at tick 1000 with the 32 bit time limit
3000000000 gets the deadline 3000001000; at the poll at the same tick (elapsed time
0, below the limit) the signed difference is not negative and the session is stopped. -/
theorem C3_counterexample :
    (startGuideAxis1 (sampleEnv 1000) idleMount GA_FORWARD GR_1X 3000000000).1 = CE_NONE
    ∧ (startGuideAxis1 (sampleEnv 1000) idleMount GA_FORWARD GR_1X 3000000000).2.guideActionAxis1
        = GA_FORWARD
    ∧ (startGuideAxis1 (sampleEnv 1000) idleMount GA_FORWARD GR_1X
        3000000000).2.guideFinishTimeAxis1 = 3000001000
    ∧ elapsed 1000 1000 < 3000000000
    ∧ 0 ≤ toLong (subUL 1000 3000001000)
    ∧ (pollGuides (sampleEnv 1000)
        (startGuideAxis1 (sampleEnv 1000) idleMount GA_FORWARD GR_1X
          3000000000).2).guideActionAxis1 = GA_NONE := by
  decide

/-- C3 as amended: for a time limit `T` with `0 < T ≤ 2^31`, a session of either axis
started at tick `s` and still forward or reverse with that deadline is not stopped by a
poll whose elapsed time since `s` (modulo `2^32`) is below `T`: the signed difference is
negative, the poller leaves the mount as it is and the action stays forward or reverse,
whether or not `s + T` wraps. -/
theorem C3_no_early_timeout (ax : AxisId) (e1 e2 : Env) (m m' : Mount)
    (a : GuideAction) (sel : Nat) (T : Nat)
    (hs : e1.millis < 4294967296) (hT0 : 0 < T) (hT : T ≤ 2147483648)
    (hnoop : ¬ (a = GA_NONE ∨ m.guideAction ax = a))
    (hok : (startGuide ax e1 m a sel T).1 = CE_NONE)
    (hdl : m'.guideFinishTime ax = (startGuide ax e1 m a sel T).2.guideFinishTime ax)
    (hact : isGuiding (m'.guideAction ax) = true)
    (hlt : elapsed e2.millis e1.millis < T) :
    ¬ (0 ≤ toLong (subUL e2.millis (m'.guideFinishTime ax)))
    ∧ pollGuide ax e2 m' = m'
    ∧ (pollGuides e2 m').guideAction ax = m'.guideAction ax := by
  obtain ⟨-, -, h3, -⟩ := startGuide_genuine ax e1 m a sel T hnoop hok
  have hneg : ¬ (0 ≤ toLong (subUL e2.millis (m'.guideFinishTime ax))) := by
    rw [hdl, h3, if_neg (by omega), deadline_test _ _ _ hs (by omega)]
    omega
  have hpoll : pollGuide ax e2 m' = m' := by
    rw [pollGuide_guiding ax e2 m' hact, if_neg hneg]
  exact ⟨hneg, hpoll, by rw [(pollGuides_session ax e2 m').1, hpoll]⟩

/-- C3 as amended at a start tick 5000 ticks before the counter wraps: limit 10000,
poll 9999 ticks after the start, at tick 4999. -/
theorem C3_no_early_timeout_witness :
    (pollGuides (sampleEnv 4999)
        (startGuide .axis1 (sampleEnv 4294962296) idleMount GA_FORWARD GR_8X 10000).2).guideAction
      .axis1
      = (startGuide .axis1 (sampleEnv 4294962296) idleMount GA_FORWARD GR_8X 10000).2.guideAction
        .axis1 :=
  (C3_no_early_timeout .axis1 (sampleEnv 4294962296) (sampleEnv 4999) idleMount
    (startGuide .axis1 (sampleEnv 4294962296) idleMount GA_FORWARD GR_8X 10000).2
    GA_FORWARD GR_8X 10000 (by decide) (by decide) (by decide) (by decide) (by decide) rfl
    (by decide) (by decide)).2.2

/-! ## C4 to C6: the checks of start -/

theorem startGuideAxis1_result (e : Env) (m : Mount) (a : GuideAction) (sel : Nat) (T : Nat) :
    (startGuideAxis1 e m a sel T).1
      = firstFailingPrecondition (decide (a = GA_NONE ∨ m.guideActionAxis1 = a))
          (e.axis1.driverFault || e.axis1.motorFault) (decide (e.parkState = PS_PARKED))
          (decide (e.gotoState ≠ GS_NONE) || isSpiralGuiding) (validGuideAxis1 e m a).1
          (decide (sel = GR_QUARTER ∨ sel = GR_HALF ∨ sel = GR_1X))
          (e.anyError || e.axis1.motionError) := by
  have hsel : (sel = 0 ∨ sel = 1 ∨ sel = 2) ↔ sel < 3 := by omega
  unfold startGuideAxis1
  generalize validGuideAxis1 e m a = v
  simp only [firstFailingPrecondition, isSpiralGuiding, decide_eq_true_eq, Bool.or_false,
    Bool.false_eq_true, if_false, hsel, Bool.and_eq_true, Bool.or_eq_true]
  by_cases h0 : a = GA_NONE ∨ m.guideActionAxis1 = a
  · simp only [if_pos h0]
  simp only [if_neg h0]
  by_cases h1 : e.axis1.driverFault = true ∨ e.axis1.motorFault = true
  · simp only [if_pos h1]
  simp only [if_neg h1]
  by_cases h2 : e.parkState = PS_PARKED
  · simp only [if_pos h2]
  simp only [if_neg h2]
  by_cases h3 : e.gotoState ≠ GS_NONE
  · simp only [if_pos h3]
  simp only [if_neg h3]
  by_cases h4 : (!v.1) = true
  · simp only [if_pos h4]
  simp only [if_neg h4]
  by_cases h5 : sel < 3 <;> cases h6 : e.anyError <;> cases h7 : e.axis1.motionError <;>
    simp [h5]

theorem startGuideAxis2_result (e : Env) (m : Mount) (a : GuideAction) (sel : Nat) (T : Nat) :
    (startGuideAxis2 e m a sel T).1
      = firstFailingPrecondition (decide (a = GA_NONE ∨ m.guideActionAxis2 = a))
          (e.axis2.driverFault || e.axis2.motorFault) (decide (e.parkState = PS_PARKED))
          (decide (e.gotoState ≠ GS_NONE) || isSpiralGuiding) (validGuideAxis2 e m a).1
          (decide (sel = GR_QUARTER ∨ sel = GR_HALF ∨ sel = GR_1X))
          (e.anyError || e.axis2.motionError) := by
  have hsel : (sel = 0 ∨ sel = 1 ∨ sel = 2) ↔ sel < 3 := by omega
  unfold startGuideAxis2
  generalize validGuideAxis2 e m a = v
  simp only [firstFailingPrecondition, isSpiralGuiding, decide_eq_true_eq, Bool.or_false,
    Bool.false_eq_true, if_false, hsel, Bool.and_eq_true, Bool.or_eq_true]
  by_cases h0 : a = GA_NONE ∨ m.guideActionAxis2 = a
  · simp only [if_pos h0]
  simp only [if_neg h0]
  by_cases h1 : e.axis2.driverFault = true ∨ e.axis2.motorFault = true
  · simp only [if_pos h1]
  simp only [if_neg h1]
  by_cases h2 : e.parkState = PS_PARKED
  · simp only [if_pos h2]
  simp only [if_neg h2]
  by_cases h3 : e.gotoState ≠ GS_NONE
  · simp only [if_pos h3]
  simp only [if_neg h3]
  by_cases h4 : (!v.1) = true
  · simp only [if_pos h4]
  simp only [if_neg h4]
  by_cases h5 : sel < 3 <;> cases h6 : e.anyError <;> cases h7 : e.axis2.motionError <;>
    simp [h5]

/-- C4: for either axis, every state and every request, the result of start is the
error of the first failing precondition in the order (1) requested action none or
equal to the current action: success, (2) driver or motor fault: hardware fault,
(3) parked: in park, (4) goto in progress or spiral guiding: in motion, (5) direction
rejected by the limit validator: outside limits, (6) slow-tier selector (quarter, half,
1x) with a general or motion error: outside limits, otherwise success. In particular a
faulted axis on a parked mount gives hardware fault, a parked mount with a goto in
progress gives in park, and a goto in progress outside the limits gives in motion. -/
theorem C4_start_returns_first_failing_precondition (ax : AxisId) (e : Env) (m : Mount)
    (a : GuideAction) (sel T : Nat) :
    (startGuide ax e m a sel T).1
      = firstFailingPrecondition (decide (a = GA_NONE ∨ m.guideAction ax = a))
          ((e.axis ax).driverFault || (e.axis ax).motorFault) (decide (e.parkState = PS_PARKED))
          (decide (e.gotoState ≠ GS_NONE) || isSpiralGuiding) (validGuide ax e m a).1
          (decide (sel = GR_QUARTER ∨ sel = GR_HALF ∨ sel = GR_1X))
          (e.anyError || (e.axis ax).motionError)
    ∧ (¬ (a = GA_NONE ∨ m.guideAction ax = a) →
        ((e.axis ax).driverFault || (e.axis ax).motorFault) = true → e.parkState = PS_PARKED →
        (startGuide ax e m a sel T).1 = CE_SLEW_ERR_HARDWARE_FAULT)
    ∧ (¬ (a = GA_NONE ∨ m.guideAction ax = a) →
        ((e.axis ax).driverFault || (e.axis ax).motorFault) = false → e.parkState = PS_PARKED →
        e.gotoState ≠ GS_NONE → (startGuide ax e m a sel T).1 = CE_SLEW_ERR_IN_PARK)
    ∧ (¬ (a = GA_NONE ∨ m.guideAction ax = a) →
        ((e.axis ax).driverFault || (e.axis ax).motorFault) = false → e.parkState ≠ PS_PARKED →
        e.gotoState ≠ GS_NONE → (validGuide ax e m a).1 = false →
        (startGuide ax e m a sel T).1 = CE_SLEW_IN_MOTION) := by
  have main : (startGuide ax e m a sel T).1
      = firstFailingPrecondition (decide (a = GA_NONE ∨ m.guideAction ax = a))
          ((e.axis ax).driverFault || (e.axis ax).motorFault) (decide (e.parkState = PS_PARKED))
          (decide (e.gotoState ≠ GS_NONE) || isSpiralGuiding) (validGuide ax e m a).1
          (decide (sel = GR_QUARTER ∨ sel = GR_HALF ∨ sel = GR_1X))
          (e.anyError || (e.axis ax).motionError) := by
    cases ax
    · exact startGuideAxis1_result e m a sel T
    · exact startGuideAxis2_result e m a sel T
  refine ⟨main, ?_, ?_, ?_⟩
  · intro h0 h1 _
    rw [main]; simp only [firstFailingPrecondition, decide_eq_false h0, h1]; rfl
  · intro h0 h1 h2 _
    rw [main]; simp only [firstFailingPrecondition, decide_eq_false h0, h1, decide_eq_true h2]; rfl
  · intro h0 h1 h2 h3 _
    rw [main]
    simp only [firstFailingPrecondition, decide_eq_false h0, h1, decide_eq_false h2,
      decide_eq_true h3]; rfl

/-- C4 on a parked mount whose axis1 reports a driver fault: hardware fault. -/
theorem C4_start_returns_first_failing_precondition_witness :
    (startGuide .axis1
      { parkedEnv 1000 with axis1 := { sampleAxis with driverFault := true } }
      idleMount GA_FORWARD GR_1X 0).1 = CE_SLEW_ERR_HARDWARE_FAULT :=
  (C4_start_returns_first_failing_precondition .axis1
    { parkedEnv 1000 with axis1 := { sampleAxis with driverFault := true } }
    idleMount GA_FORWARD GR_1X 0).2.1 (by decide) (by decide) (by decide)

theorem startGuide_noop (ax : AxisId) (e : Env) (m : Mount) (a : GuideAction) (sel T : Nat)
    (h : a = GA_NONE ∨ m.guideAction ax = a) : startGuide ax e m a sel T = (CE_NONE, m) := by
  cases ax
  · simp only [startGuide, startGuideAxis1]; exact if_pos h
  · simp only [startGuide, startGuideAxis2]; exact if_pos h

/-- A rejected start leaves the mount as it was, up to the refreshed position. -/
theorem startGuide_reject (ax : AxisId) (e : Env) (m : Mount) (a : GuideAction) (sel T : Nat)
    (h : (startGuide ax e m a sel T).1 ≠ CE_NONE) :
    (startGuide ax e m a sel T).2
      = { m with current := (startGuide ax e m a sel T).2.current } := by
  cases ax
  · rcases startGuideAxis1_cases e m a sel T with ⟨_, h1⟩ | ⟨_, h2⟩ | ⟨_, err, -, h3 | h3⟩
    · simp only [startGuide, h1] at h; exact absurd rfl h
    · simp only [startGuide, h2] at h; exact absurd rfl h
    · simp only [startGuide, h3]
    · simp only [startGuide, h3]; exact validGuideAxis1_frame e m a
  · rcases startGuideAxis2_cases e m a sel T with ⟨_, h1⟩ | ⟨_, h2⟩ | ⟨_, err, -, h3 | h3⟩
    · simp only [startGuide, h1] at h; exact absurd rfl h
    · simp only [startGuide, h2] at h; exact absurd rfl h
    · simp only [startGuide, h3]
    · simp only [startGuide, h3]; exact validGuideAxis2_frame e m a

/-- C5: for either axis, every state and every request, if start returns an error
(hardware fault, in park, in motion or outside limits) then the action, the offset rate
and the deadline of that axis are what they were before the call and the trace of
commands is unchanged: no `setFrequencyMax`, no `autoSlew`, no `updateTrackingRates`.
Nothing but the refreshed position differs from the mount before the call. -/
theorem C5_rejection_is_atomic (ax : AxisId) (e : Env) (m : Mount) (a : GuideAction)
    (sel T : Nat)
    (h : (startGuide ax e m a sel T).1 = CE_SLEW_ERR_HARDWARE_FAULT
      ∨ (startGuide ax e m a sel T).1 = CE_SLEW_ERR_IN_PARK
      ∨ (startGuide ax e m a sel T).1 = CE_SLEW_IN_MOTION
      ∨ (startGuide ax e m a sel T).1 = CE_SLEW_ERR_OUTSIDE_LIMITS) :
    (startGuide ax e m a sel T).2.guideAction ax = m.guideAction ax
    ∧ (startGuide ax e m a sel T).2.guideRate ax = m.guideRate ax
    ∧ (startGuide ax e m a sel T).2.guideFinishTime ax = m.guideFinishTime ax
    ∧ (startGuide ax e m a sel T).2.trace = m.trace
    ∧ (startGuide ax e m a sel T).2
        = { m with current := (startGuide ax e m a sel T).2.current } := by
  have hne : (startGuide ax e m a sel T).1 ≠ CE_NONE := by
    rcases h with h | h | h | h <;> rw [h] <;> decide
  have hfr := startGuide_reject ax e m a sel T hne
  obtain ⟨h1, h2, h3, h4⟩ := session_ext ax m _ hfr
  exact ⟨h1, h2, h3, h4, hfr⟩

/-- C5 on a parked mount: the start of axis1 is rejected and nothing is commanded. -/
theorem C5_rejection_is_atomic_witness :
    (startGuide .axis1 (parkedEnv 1000) idleMount GA_FORWARD GR_1X 0).2.trace = idleMount.trace :=
  (C5_rejection_is_atomic .axis1 (parkedEnv 1000) idleMount GA_FORWARD GR_1X 0
    (Or.inr (Or.inl (by decide)))).2.2.2.1

/-- C6, refuted as stated: on a parked mount the first start of axis1 is rejected with
in park, and the second start with the same action and unchanged inputs is rejected
again: it does not return success. -/
theorem C6_counterexample :
    (startGuideAxis1 (parkedEnv 1000) idleMount GA_FORWARD GR_1X 0).1 = CE_SLEW_ERR_IN_PARK
    ∧ (startGuideAxis1 (parkedEnv 1000)
        (startGuideAxis1 (parkedEnv 1000) idleMount GA_FORWARD GR_1X 0).2
        GA_FORWARD GR_1X 0).1 = CE_SLEW_ERR_IN_PARK := by
  decide

/-- C6 as amended: for either axis, if a start with some action returned success (a
genuine start or a no-op), a second start with the same action directly after it
returns success and leaves the whole mount, the action, the offset rate and the deadline
included, as the first call left it, with no command issued; this holds for any
selector and time limit of the second call and for any inputs at the second call, a
fault or park condition included. -/
theorem C6_second_start_is_noop (ax : AxisId) (e1 e2 : Env) (m : Mount) (a : GuideAction)
    (sel1 T1 sel2 T2 : Nat) (h : (startGuide ax e1 m a sel1 T1).1 = CE_NONE) :
    startGuide ax e2 (startGuide ax e1 m a sel1 T1).2 a sel2 T2
      = (CE_NONE, (startGuide ax e1 m a sel1 T1).2) := by
  apply startGuide_noop
  by_cases hn : a = GA_NONE ∨ m.guideAction ax = a
  · rw [startGuide_noop ax e1 m a sel1 T1 hn]; exact hn
  · exact Or.inr (startGuide_genuine ax e1 m a sel1 T1 hn h).1

/-- C6 as amended on a genuine start of axis1 followed by a start with another
selector and time limit on a mount that has been parked in between. -/
theorem C6_second_start_is_noop_witness :
    startGuide .axis1 (parkedEnv 2000)
        (startGuide .axis1 (sampleEnv 1000) idleMount GA_FORWARD GR_1X 0).2 GA_FORWARD GR_8X 5000
      = (CE_NONE, (startGuide .axis1 (sampleEnv 1000) idleMount GA_FORWARD GR_1X 0).2) :=
  C6_second_start_is_noop .axis1 (sampleEnv 1000) (parkedEnv 2000) idleMount GA_FORWARD
    GR_1X 0 GR_8X 5000 (by decide)

/-! ## C7: the two modes of a genuine start -/

/-- C7, evaluated on the code: axis1 of an idle healthy mount is started forward at 1x
(offset mode, offset rate 1); a start in the reverse direction at 8x then passes every
check, resolves the rate 8, which is above 2, sets the maximum slew frequency and
commands the reverse slew, and leaves the offset rate at 1 instead of 0. A stop after
it takes the offset branch: the action becomes none and no `autoSlewStop` is issued. -/
theorem C7_slew_start_keeps_offset_rate :
    (startGuideAxis1 (sampleEnv 1000) idleMount GA_FORWARD GR_1X 60000).2.guideActionAxis1
      = GA_FORWARD
    ∧ (startGuideAxis1 (sampleEnv 1000) idleMount GA_FORWARD GR_1X 60000).2.guideRateAxis1 = 1
    ∧ guideRateSelectToRate (sampleEnv 2000) GR_8X (sampleEnv 2000).defaultAxis = 8
    ∧ (startGuideAxis1 (sampleEnv 2000)
        (startGuideAxis1 (sampleEnv 1000) idleMount GA_FORWARD GR_1X 60000).2
        GA_REVERSE GR_8X 5000).1 = CE_NONE
    ∧ (startGuideAxis1 (sampleEnv 2000)
        (startGuideAxis1 (sampleEnv 1000) idleMount GA_FORWARD GR_1X 60000).2
        GA_REVERSE GR_8X 5000).2.guideActionAxis1 = GA_REVERSE
    ∧ (startGuideAxis1 (sampleEnv 2000)
        (startGuideAxis1 (sampleEnv 1000) idleMount GA_FORWARD GR_1X 60000).2
        GA_REVERSE GR_8X 5000).2.guideRateAxis1 = 1
    ∧ (startGuideAxis1 (sampleEnv 2000)
        (startGuideAxis1 (sampleEnv 1000) idleMount GA_FORWARD GR_1X 60000).2
        GA_REVERSE GR_8X 5000).2.trace
        = [Command.updateTrackingRates,
            Command.setFrequencyMax 1 ((sampleEnv 2000).degToRad (8 / 240)),
            Command.autoSlew 1 DIR_REVERSE]
    ∧ (stopGuideAxis1 (startGuideAxis1 (sampleEnv 2000)
        (startGuideAxis1 (sampleEnv 1000) idleMount GA_FORWARD GR_1X 60000).2
        GA_REVERSE GR_8X 5000).2).guideActionAxis1 = GA_NONE
    ∧ (stopGuideAxis1 (startGuideAxis1 (sampleEnv 2000)
        (startGuideAxis1 (sampleEnv 1000) idleMount GA_FORWARD GR_1X 60000).2
        GA_REVERSE GR_8X 5000).2).trace
        = [Command.updateTrackingRates,
            Command.setFrequencyMax 1 ((sampleEnv 2000).degToRad (8 / 240)),
            Command.autoSlew 1 DIR_REVERSE, Command.updateTrackingRates] := by
  refine ⟨by decide, by decide, by decide, by decide, by decide, by decide, ?_, by decide, ?_⟩
  · rfl
  · rfl

/-- The part of C7 that the code satisfies: on a genuine start of either axis with the
resolved rate `r`, if `r ≤ 2` the offset rate becomes `r` (or `-r` for reverse) and the
only command is the tracking-rate recompute; if `r > 2` the commands are
`setFrequencyMax (degToRad (r / 240))` and `autoSlew` in the requested direction, and the
offset rate is the one the session had before, which is 0 only if it was 0. -/
theorem start_mode_selection (ax : AxisId) (e : Env) (m : Mount) (a : GuideAction)
    (sel T : Nat) (hn : ¬ (a = GA_NONE ∨ m.guideAction ax = a))
    (h : (startGuide ax e m a sel T).1 = CE_NONE) :
    (guideRateSelectToRate e sel e.defaultAxis ≤ 2 →
      (startGuide ax e m a sel T).2.guideRate ax
          = (if a = GA_REVERSE then -guideRateSelectToRate e sel e.defaultAxis
              else guideRateSelectToRate e sel e.defaultAxis)
        ∧ (startGuide ax e m a sel T).2.trace = m.trace ++ [Command.updateTrackingRates])
    ∧ (2 < guideRateSelectToRate e sel e.defaultAxis →
      (startGuide ax e m a sel T).2.guideRate ax = m.guideRate ax
        ∧ (startGuide ax e m a sel T).2.trace = m.trace ++
            [Command.setFrequencyMax ax.number
                (e.degToRad (guideRateSelectToRate e sel e.defaultAxis / 240)),
              Command.autoSlew ax.number (slewDirection a)]) := by
  obtain ⟨-, h2, -, h4⟩ := startGuide_genuine ax e m a sel T hn h
  constructor
  · intro hr
    rw [h2, h4, if_pos hr, if_pos hr]
    exact ⟨rfl, rfl⟩
  · intro hr
    rw [h2, h4, if_neg (not_le.mpr hr), if_neg (not_le.mpr hr)]
    exact ⟨rfl, rfl⟩

/-! ## C8: stop -/

/-- C8: stop of either axis is a three-way case split. If the action is none or break
the mount is unchanged (no field changes, no command). If the action is forward or
reverse and the offset rate is not 0, the action becomes none and the offset rate 0, and
the only command is the tracking-rate recompute. If the action is forward or reverse and
the offset rate is 0, the action becomes break, the offset rate stays 0, and the only
command is `autoSlewStop`. The deadline is never modified, and stopping twice is the same
as stopping once. -/
theorem C8_stop_three_way (ax : AxisId) (m : Mount) :
    ((m.guideAction ax = GA_NONE ∨ m.guideAction ax = GA_BREAK) → stopGuide ax m = m)
    ∧ ((m.guideAction ax = GA_FORWARD ∨ m.guideAction ax = GA_REVERSE) → m.guideRate ax ≠ 0 →
        (stopGuide ax m).guideAction ax = GA_NONE ∧ (stopGuide ax m).guideRate ax = 0
          ∧ (stopGuide ax m).trace = m.trace ++ [Command.updateTrackingRates])
    ∧ ((m.guideAction ax = GA_FORWARD ∨ m.guideAction ax = GA_REVERSE) → m.guideRate ax = 0 →
        (stopGuide ax m).guideAction ax = GA_BREAK ∧ (stopGuide ax m).guideRate ax = 0
          ∧ (stopGuide ax m).trace = m.trace ++ [Command.autoSlewStop ax.number])
    ∧ (stopGuide ax m).guideFinishTime ax = m.guideFinishTime ax
    ∧ stopGuide ax (stopGuide ax m) = stopGuide ax m := by
  have hidle : (m.guideAction ax = GA_NONE ∨ m.guideAction ax = GA_BREAK) → stopGuide ax m = m := by
    intro h
    apply stopGuide_idle
    rcases h with h | h <;> rw [h] <;> rfl
  have hstopped : isGuiding ((stopGuide ax m).guideAction ax) = false := by
    cases hg : isGuiding (m.guideAction ax)
    · rw [stopGuide_idle ax m hg]; exact hg
    · by_cases hr : m.guideRate ax = 0
      · rw [(stopGuide_slew ax m hg hr).1]; rfl
      · rw [(stopGuide_offset ax m hg hr).1]; rfl
  refine ⟨hidle, ?_, ?_, ?_, stopGuide_idle ax _ hstopped⟩
  · intro h hr
    obtain ⟨h1, h2, -, h4⟩ := stopGuide_offset ax m ((isGuiding_iff _).mpr h) hr
    exact ⟨h1, h2, h4⟩
  · intro h hr
    obtain ⟨h1, h2, -, h4⟩ := stopGuide_slew ax m ((isGuiding_iff _).mpr h) hr
    exact ⟨h1, h2, h4⟩
  · cases hg : isGuiding (m.guideAction ax)
    · rw [stopGuide_idle ax m hg]
    · by_cases hr : m.guideRate ax = 0
      · exact (stopGuide_slew ax m hg hr).2.2.1
      · exact (stopGuide_offset ax m hg hr).2.2.1

/-- C8 on a slew-mode session of axis1: stop gives break and requests the slew stop. -/
theorem C8_stop_three_way_witness :
    (stopGuide .axis1
        (startGuide .axis1 (sampleEnv 1000) idleMount GA_FORWARD GR_8X 5000).2).guideAction .axis1
      = GA_BREAK :=
  ((C8_stop_three_way .axis1
      (startGuide .axis1 (sampleEnv 1000) idleMount GA_FORWARD GR_8X 5000).2).2.2.1
    (by decide) (by decide)).1

/-! ## C9: the poller and the break state -/

/-- A session in break whose slew is still active is left alone by its half of the
poller. -/
theorem pollGuide_break_active (ax : AxisId) (e : Env) (m : Mount)
    (h1 : m.guideAction ax = GA_BREAK) (h3 : (e.axis ax).autoSlewActive = true) :
    pollGuide ax e m = m := by
  cases ax <;>
    simp_all [pollGuide, pollGuideAxis1, pollGuideAxis2, Mount.guideAction, Env.axis,
      GuideAction.toNat]

/-- A session in break with offset rate 0 whose slew is no longer active is finalized by
its half of the poller: action none, one tracking-rate recompute. -/
theorem pollGuide_finalize (ax : AxisId) (e : Env) (m : Mount)
    (h1 : m.guideAction ax = GA_BREAK) (h2 : m.guideRate ax = 0)
    (h3 : (e.axis ax).autoSlewActive = false) :
    (pollGuide ax e m).guideAction ax = GA_NONE
      ∧ (pollGuide ax e m).trace = m.trace ++ [Command.updateTrackingRates] := by
  cases ax <;>
    simp_all [pollGuide, pollGuideAxis1, pollGuideAxis2, Mount.guideAction, Mount.guideRate,
      Env.axis, updateTrackingRates, issue, setGuideActionAxis1, setGuideActionAxis2]

/-- A half of the poller only appends to the trace. -/
theorem pollGuide_trace (ax : AxisId) (e : Env) (m : Mount) :
    ∃ issued, (pollGuide ax e m).trace = m.trace ++ issued := by
  cases ax
  · simp only [pollGuide, pollGuideAxis1, stopGuideAxis1]
    split_ifs
    · exact ⟨[Command.updateTrackingRates], rfl⟩
    · exact ⟨[Command.autoSlewStop 1], rfl⟩
    · exact ⟨[Command.updateTrackingRates], rfl⟩
    · exact ⟨[], (List.append_nil _).symm⟩
    · exact ⟨[], (List.append_nil _).symm⟩
  · simp only [pollGuide, pollGuideAxis2, stopGuideAxis2]
    split_ifs
    · exact ⟨[Command.updateTrackingRates], rfl⟩
    · exact ⟨[Command.autoSlewStop 2], rfl⟩
    · exact ⟨[Command.updateTrackingRates], rfl⟩
    · exact ⟨[], (List.append_nil _).symm⟩
    · exact ⟨[], (List.append_nil _).symm⟩

/-- C9: for either axis, every state and every tick, if the actuator of the axis reports
its automatic slew active and the action is break before `pollGuides`, the action is
still break after it; and if the action is break, the offset rate 0 and the slew is
reported inactive, then after `pollGuides` the action is none and a tracking-rate
recompute has been issued during the call. -/
theorem C9_poll_and_break (ax : AxisId) (e : Env) (m : Mount) :
    ((e.axis ax).autoSlewActive = true → m.guideAction ax = GA_BREAK →
        (pollGuides e m).guideAction ax = GA_BREAK)
    ∧ (m.guideAction ax = GA_BREAK → m.guideRate ax = 0 → (e.axis ax).autoSlewActive = false →
        (pollGuides e m).guideAction ax = GA_NONE
        ∧ ∃ before after, (pollGuides e m).trace
            = m.trace ++ before ++ [Command.updateTrackingRates] ++ after) := by
  constructor
  · intro h3 h1
    rw [(pollGuides_session ax e m).1, pollGuide_break_active ax e m h1 h3, h1]
  · intro h1 h2 h3
    refine ⟨?_, ?_⟩
    · rw [(pollGuides_session ax e m).1]; exact (pollGuide_finalize ax e m h1 h2 h3).1
    · cases ax
      · obtain ⟨after, ha⟩ := pollGuide_trace .axis2 e (pollGuideAxis1 e m)
        refine ⟨[], after, ?_⟩
        have hf := (pollGuide_finalize .axis1 e m h1 h2 h3).2
        simp only [pollGuide] at hf ha
        simp only [pollGuides, ha, hf, List.append_nil]
      · obtain ⟨before, hb⟩ := pollGuide_trace .axis1 e m
        obtain ⟨o1, o2, -⟩ := pollGuide_other .axis1 .axis2 e m (by decide)
        have hf := (pollGuide_finalize .axis2 e (pollGuideAxis1 e m) (o1.trans h1)
          (o2.trans h2) h3).2
        refine ⟨before, [], ?_⟩
        simp only [pollGuide] at hf hb
        simp only [pollGuides, hf, hb, List.append_nil]

/-- C9 on a stopping slew-mode session of axis1: while the slew is active the poll leaves
break, once it is inactive the poll gives none. -/
theorem C9_poll_and_break_witness :
    (pollGuides (slewingEnv 2000)
        (stopGuide .axis1
          (startGuide .axis1 (sampleEnv 1000) idleMount GA_FORWARD GR_8X 5000).2)).guideAction
        .axis1 = GA_BREAK
    ∧ (pollGuides (sampleEnv 2000)
        (stopGuide .axis1
          (startGuide .axis1 (sampleEnv 1000) idleMount GA_FORWARD GR_8X 5000).2)).guideAction
        .axis1 = GA_NONE :=
  ⟨(C9_poll_and_break .axis1 (slewingEnv 2000)
      (stopGuide .axis1
        (startGuide .axis1 (sampleEnv 1000) idleMount GA_FORWARD GR_8X 5000).2)).1
      (by decide) (by decide),
   ((C9_poll_and_break .axis1 (sampleEnv 2000)
      (stopGuide .axis1
        (startGuide .axis1 (sampleEnv 1000) idleMount GA_FORWARD GR_8X 5000).2)).2
      (by decide) (by decide) (by decide)).1⟩

/-! ## C10: the modes of a session (the amended statement follows `reachable_rate_zero`) -/

/-- C10, refuted as stated: from two idle sessions, a start of axis1 forward at 8x
followed by a stop reaches a state in which the action of axis1 is break and its offset
rate 0, so that none of offset-mode active, slew-mode active and idle holds. -/
theorem C10_counterexample :
    Reachable (fun a => a = GA_FORWARD ∨ a = GA_REVERSE)
      (stopGuide .axis1 (startGuide .axis1 (sampleEnv 1000) idleMount GA_FORWARD GR_8X 5000).2)
    ∧ (stopGuide .axis1
        (startGuide .axis1 (sampleEnv 1000) idleMount GA_FORWARD GR_8X 5000).2).guideAction .axis1
        = GA_BREAK
    ∧ (stopGuide .axis1
        (startGuide .axis1 (sampleEnv 1000) idleMount GA_FORWARD GR_8X 5000).2).guideRate .axis1
        = 0
    ∧ exactlyOne
        [offsetModeActive (stopGuide .axis1
            (startGuide .axis1 (sampleEnv 1000) idleMount GA_FORWARD GR_8X 5000).2) .axis1,
          slewModeActive (stopGuide .axis1
            (startGuide .axis1 (sampleEnv 1000) idleMount GA_FORWARD GR_8X 5000).2) .axis1,
          isIdle (stopGuide .axis1
            (startGuide .axis1 (sampleEnv 1000) idleMount GA_FORWARD GR_8X 5000).2) .axis1]
        = false :=
  ⟨Reachable.stop _ _
      (Reachable.start .axis1 (sampleEnv 1000) idleMount GA_FORWARD GR_8X 5000
        (Reachable.init idleMount rfl rfl rfl rfl) (Or.inl rfl) (by decide) (by decide)),
    by decide, by decide, by decide⟩

/-! ## C11: a stop after a change of mode -/

/-- C11, evaluated on the code. From two idle sessions on a healthy mount: axis1 is
started forward at 1x (offset mode), then started reverse at 8x, which commands the
reverse slew and keeps the offset rate 1, then stopped: the stop takes the offset
branch, the action is none and the offset rate 0, and the trace ends with the `autoSlew`
that no `autoSlewStop` follows. The same happens in the other order of modes (forward
at 8x, then reverse at 1x, then stop). A slew-mode session that has not changed mode is
stopped with `autoSlewStop`. -/
theorem C11_idle_with_slew_running :
    Reachable (fun a => a = GA_FORWARD ∨ a = GA_REVERSE)
      (stopGuide .axis1 (startGuide .axis1 (sampleEnv 2000)
        (startGuide .axis1 (sampleEnv 1000) idleMount GA_FORWARD GR_1X 60000).2
        GA_REVERSE GR_8X 5000).2)
    ∧ (stopGuideAxis1 (startGuideAxis1 (sampleEnv 2000)
        (startGuideAxis1 (sampleEnv 1000) idleMount GA_FORWARD GR_1X 60000).2
        GA_REVERSE GR_8X 5000).2).guideActionAxis1 = GA_NONE
    ∧ (stopGuideAxis1 (startGuideAxis1 (sampleEnv 2000)
        (startGuideAxis1 (sampleEnv 1000) idleMount GA_FORWARD GR_1X 60000).2
        GA_REVERSE GR_8X 5000).2).guideRateAxis1 = 0
    ∧ (stopGuideAxis1 (startGuideAxis1 (sampleEnv 2000)
        (startGuideAxis1 (sampleEnv 1000) idleMount GA_FORWARD GR_1X 60000).2
        GA_REVERSE GR_8X 5000).2).trace
        = [Command.updateTrackingRates,
            Command.setFrequencyMax 1 ((sampleEnv 2000).degToRad (8 / 240)),
            Command.autoSlew 1 DIR_REVERSE, Command.updateTrackingRates]
    ∧ slewLeftRunning 1 (stopGuideAxis1 (startGuideAxis1 (sampleEnv 2000)
        (startGuideAxis1 (sampleEnv 1000) idleMount GA_FORWARD GR_1X 60000).2
        GA_REVERSE GR_8X 5000).2).trace = true
    ∧ (stopGuideAxis1 (startGuideAxis1 (sampleEnv 2000)
        (startGuideAxis1 (sampleEnv 1000) idleMount GA_FORWARD GR_8X 60000).2
        GA_REVERSE GR_1X 5000).2).guideActionAxis1 = GA_NONE
    ∧ slewLeftRunning 1 (stopGuideAxis1 (startGuideAxis1 (sampleEnv 2000)
        (startGuideAxis1 (sampleEnv 1000) idleMount GA_FORWARD GR_8X 60000).2
        GA_REVERSE GR_1X 5000).2).trace = true
    ∧ slewLeftRunning 1 (stopGuideAxis1
        (startGuideAxis1 (sampleEnv 1000) idleMount GA_FORWARD GR_8X 60000).2).trace = false := by
  refine ⟨?_, by decide, by decide, ?_, by decide, by decide, by decide, by decide⟩
  · exact Reachable.stop _ _
      (Reachable.start .axis1 (sampleEnv 2000) _ GA_REVERSE GR_8X 5000
        (Reachable.start .axis1 (sampleEnv 1000) idleMount GA_FORWARD GR_1X 60000
          (Reachable.init idleMount rfl rfl rfl rfl) (Or.inl rfl) (by decide) (by decide))
        (Or.inr rfl) (by decide) (by decide))
  · rfl

/-! ## C12 and C13: the rate table -/

/-- C12: for every selector and every axis id the resolved rate is that of the table:
quarter, half, 1x, 2x, 4x, 8x, 20x, 48x give 1/4, 1/2, 1, 2, 4, 8, 20, 48 whatever the
axis id and the mount; custom gives 48 for the axis ids 1 and 2 and 0 for any other;
every selector value outside the eleven named ones gives 0. The result is a function of
the selector, the axis id, the step timing and the step scale of axis1 alone, and the
resolver has no access to the state of the mount. -/
theorem C12_rate_table (e : Env) (axis : Nat) :
    guideRateSelectToRate e GR_QUARTER axis = 1 / 4
    ∧ guideRateSelectToRate e GR_HALF axis = 1 / 2
    ∧ guideRateSelectToRate e GR_1X axis = 1
    ∧ guideRateSelectToRate e GR_2X axis = 2
    ∧ guideRateSelectToRate e GR_4X axis = 4
    ∧ guideRateSelectToRate e GR_8X axis = 8
    ∧ guideRateSelectToRate e GR_20X axis = 20
    ∧ guideRateSelectToRate e GR_48X axis = 48
    ∧ guideRateSelectToRate e GR_CUSTOM axis = (if axis = 1 ∨ axis = 2 then 48 else 0)
    ∧ (∀ sel : Nat, 10 < sel → guideRateSelectToRate e sel axis = 0)
    ∧ (∀ (e2 : Env) (sel : Nat), e2.usPerStepCurrent = e.usPerStepCurrent →
        e2.degToRad e2.axis1.stepsPerMeasure = e.degToRad e.axis1.stepsPerMeasure →
        guideRateSelectToRate e2 sel axis = guideRateSelectToRate e sel axis) := by
  refine ⟨rfl, rfl, rfl, rfl, rfl, rfl, rfl, rfl, ?_, ?_, ?_⟩
  · unfold guideRateSelectToRate
    by_cases h1 : axis = 1
    · simp [h1]
    · by_cases h2 : axis = 2
      · simp [h2]
      · simp [h1, h2]
  · intro sel hsel
    unfold guideRateSelectToRate
    simp only [GR_QUARTER, GR_HALF, GR_1X, GR_2X, GR_4X, GR_8X, GR_20X, GR_48X, GR_HALF_MAX,
      GR_MAX, GR_CUSTOM]
    repeat' rw [if_neg (by omega)]
  · intro e2 sel h1 h2
    unfold guideRateSelectToRate
    rw [h1, h2]

/-- C12 on a selector outside the table. -/
theorem C12_rate_table_witness : guideRateSelectToRate (sampleEnv 0) 11 1 = 0 :=
  (C12_rate_table (sampleEnv 0) 1).2.2.2.2.2.2.2.2.2.1 11 (by decide)

/-- The rate of the selector half-of-max is twice the rate of the selector max, for
every step timing, step scale and axis id. -/
theorem half_max_eq_two_mul_max (e : Env) (axis : Nat) :
    guideRateSelectToRate e GR_HALF_MAX axis = 2 * guideRateSelectToRate e GR_MAX axis := by
  simp only [guideRateSelectToRate, GR_QUARTER, GR_HALF, GR_1X, GR_2X, GR_4X, GR_8X, GR_20X,
    GR_48X, GR_HALF_MAX, GR_MAX]
  norm_num
  ring

/-- The rate of the selector max is `(1e6 / usPerStepCurrent) / degToRad(stepsPerMeasure)`
with the step scale of axis1, for every axis id. -/
theorem max_rate_eq (e : Env) (axis : Nat) :
    guideRateSelectToRate e GR_MAX axis
      = (1000000 / e.usPerStepCurrent) / e.degToRad e.axis1.stepsPerMeasure := rfl

/-- Scope of the defect behind C13: whenever the step timing and the converted step scale
are positive, the rate of half-of-max differs from half the rate of max. -/
theorem half_max_ne_half_of_max (e : Env) (axis : Nat) (hu : 0 < e.usPerStepCurrent)
    (hd : 0 < e.degToRad e.axis1.stepsPerMeasure) :
    guideRateSelectToRate e GR_HALF_MAX axis ≠ guideRateSelectToRate e GR_MAX axis / 2 := by
  rw [half_max_eq_two_mul_max, max_rate_eq]
  have hpos : 0 < (1000000 / e.usPerStepCurrent) / e.degToRad e.axis1.stepsPerMeasure :=
    div_pos (div_pos (by norm_num) hu) hd
  intro h
  linarith

/-- C13, evaluated on the code: with 64 microseconds per step and 12800 steps per
measure on axis1, the rate of max is `(1000000 / 64) / degToRad(12800)` for both axis
ids, and the rate of half-of-max is `(2000000 / 64) / degToRad(12800)`, twice the rate of
max and not half of it. -/
theorem C13_half_max_is_twice_max :
    (sampleEnv 0).usPerStepCurrent = 64 ∧ (sampleEnv 0).axis1.stepsPerMeasure = 12800
    ∧ guideRateSelectToRate (sampleEnv 0) GR_MAX 1
        = (1000000 / 64) / (sampleEnv 0).degToRad 12800
    ∧ guideRateSelectToRate (sampleEnv 0) GR_MAX 2
        = (1000000 / 64) / (sampleEnv 0).degToRad 12800
    ∧ guideRateSelectToRate (sampleEnv 0) GR_HALF_MAX 1
        = (2000000 / 64) / (sampleEnv 0).degToRad 12800
    ∧ guideRateSelectToRate (sampleEnv 0) GR_HALF_MAX 1
        = 2 * guideRateSelectToRate (sampleEnv 0) GR_MAX 1
    ∧ guideRateSelectToRate (sampleEnv 0) GR_HALF_MAX 1
        ≠ guideRateSelectToRate (sampleEnv 0) GR_MAX 1 / 2 := by
  refine ⟨rfl, rfl, rfl, rfl, rfl, half_max_eq_two_mul_max _ _, ?_⟩
  apply half_max_ne_half_of_max
  · show (0 : ℚ) < 64
    norm_num
  · show (0 : ℚ) < 12800 * 157 / 9000
    norm_num

/-! ## C14 to C16: the limit validators -/

/-- C14, refuted as stated: limits enabled, meridian flip enabled, pier side east, hour
angle 0, past-meridian-east limit 15, axis1 limits -90 and 90. The hour angle is below
the past-meridian-east limit, so the predicate of the specification refuses forward; the code
compares with the negated limit -15 and allows it. -/
theorem C14_counterexample :
    (sampleEnv 0).limitsEnabled = true ∧ (sampleEnv 0).meridianFlip ≠ MF_NEVER
    ∧ ((sampleEnv 0).updatePosition idleMount.current).pierSide = PIER_SIDE_EAST
    ∧ ((sampleEnv 0).updatePosition idleMount.current).h = 0
    ∧ (sampleEnv 0).limits.pastMeridianE = 15
    ∧ validGuideAxis1Spec (sampleEnv 0).limitsEnabled (sampleEnv 0).meridianFlip
        ((sampleEnv 0).updatePosition idleMount.current).pierSide
        ((sampleEnv 0).updatePosition idleMount.current).h
        (sampleEnv 0).limits.pastMeridianE (sampleEnv 0).limits.pastMeridianW
        (sampleEnv 0).axis1.limitsMin (sampleEnv 0).axis1.limitsMax GA_FORWARD = false
    ∧ (validGuideAxis1 (sampleEnv 0) idleMount GA_FORWARD).1 = true := by
  decide

/-- C14 as amended: for every mount state `validGuideAxis1` is exactly the predicate
of the specification taken with the negated past-meridian-east limit as the east
threshold. It returns true when limit enforcement is disabled; otherwise for forward it
returns false iff (meridian flip not never and pier side east and hour angle below
minus the past-meridian-east limit) or hour angle below the axis1 minimum; for reverse
it returns false iff (meridian flip not never and pier side west and hour angle above
the past-meridian-west limit) or hour angle above the axis1 maximum; for any other
action it returns true. Hour angle and pier side are those of the refreshed position. -/
theorem C14_validGuideAxis1_exact (e : Env) (m : Mount) (a : GuideAction) :
    (validGuideAxis1 e m a).1
      = validGuideAxis1Spec e.limitsEnabled e.meridianFlip
          (e.updatePosition m.current).pierSide (e.updatePosition m.current).h
          (-e.limits.pastMeridianE) e.limits.pastMeridianW
          e.axis1.limitsMin e.axis1.limitsMax a := by
  unfold validGuideAxis1 validGuideAxis1Spec updatePosition
  generalize e.updatePosition m.current = c
  cases e.limitsEnabled
  · rfl
  · simp only [apply_ite Prod.fst, Bool.not_true, Bool.false_eq_true, if_false]
    cases a
    · simp
    · simp
    · simp only [true_and, reduceCtorEq, false_and, if_false]
      split_ifs with h1 h2
      · simp_all
      · simp_all
      · simp_all; tauto
    · simp only [true_and, reduceCtorEq, false_and, if_false]
      split_ifs with h1 h2
      · simp_all
      · simp_all
      · simp_all; tauto

/-- C15, refuted as stated, at two mount states with meridian flip enabled and pier
side east. With limit enforcement disabled and the hour angle -20, which is below the
past-meridian-east limit 15 and below its negation, forward is allowed. With limit
enforcement enabled and the hour angle 0, which is below the past-meridian-east limit
15, forward is allowed too: the code compares with -15. -/
theorem C15_counterexample :
    (validGuideAxis1 { sampleEnv 0 with limitsEnabled := false }
        { idleMount with current := { sampleCoordinate with h := -20 } } GA_FORWARD).1 = true
    ∧ (sampleEnv 0).mountType = EQUATORIAL ∧ (sampleEnv 0).meridianFlip ≠ MF_NEVER
    ∧ (sampleEnv 0).limitsEnabled = true
    ∧ ((sampleEnv 0).updatePosition idleMount.current).pierSide = PIER_SIDE_EAST
    ∧ ((sampleEnv 0).updatePosition idleMount.current).h < (sampleEnv 0).limits.pastMeridianE
    ∧ (validGuideAxis1 (sampleEnv 0) idleMount GA_FORWARD).1 = true := by
  decide

/-- C15 as amended: for every mount state with limit enforcement enabled and a
meridian flip policy other than never (whatever the mount type, equatorial included),
if the pier side is east and the hour angle is below minus the past-meridian-east limit
then `validGuideAxis1(GA_FORWARD)` returns false, and if the pier side is west and the
hour angle is above the past-meridian-west limit then `validGuideAxis1(GA_REVERSE)`
returns false. Hour angle and pier side are those of the refreshed position. -/
theorem C15_meridian_limits_refuse (e : Env) (m : Mount) (hl : e.limitsEnabled = true)
    (hmf : e.meridianFlip ≠ MF_NEVER) :
    ((e.updatePosition m.current).pierSide = PIER_SIDE_EAST →
        (e.updatePosition m.current).h < -e.limits.pastMeridianE →
        (validGuideAxis1 e m GA_FORWARD).1 = false)
    ∧ ((e.updatePosition m.current).pierSide = PIER_SIDE_WEST →
        (e.updatePosition m.current).h > e.limits.pastMeridianW →
        (validGuideAxis1 e m GA_REVERSE).1 = false) := by
  unfold validGuideAxis1 updatePosition
  generalize e.updatePosition m.current = c
  simp only [hl, Bool.not_true, Bool.false_eq_true, if_false, apply_ite Prod.fst]
  constructor
  · intro hp hh
    simp [hmf, hp, hh]
  · intro hp hh
    simp [hmf, hp, hh]

/-- C15 as amended at the hour angle -20 with the past-meridian-east limit 15 and pier
side east, and at the hour angle 20 with the past-meridian-west limit 15 and pier side
west. -/
theorem C15_meridian_limits_refuse_witness :
    (validGuideAxis1 (sampleEnv 0)
        { idleMount with current := { sampleCoordinate with h := -20 } } GA_FORWARD).1 = false
    ∧ (validGuideAxis1 (sampleEnv 0)
        { idleMount with current := { sampleCoordinate with h := 20, pierSide := PIER_SIDE_WEST } }
        GA_REVERSE).1 = false :=
  ⟨(C15_meridian_limits_refuse (sampleEnv 0)
      { idleMount with current := { sampleCoordinate with h := -20 } } (by decide)
      (by decide)).1 (by decide) (by decide),
   (C15_meridian_limits_refuse (sampleEnv 0)
      { idleMount with current := { sampleCoordinate with h := 20, pierSide := PIER_SIDE_WEST } }
      (by decide) (by decide)).2 (by decide) (by decide)⟩

/-- C16: for every mount state `validGuideAxis2` is exactly the predicate of the
specification, where the coordinate `c` is the instrument coordinate of axis2 under
tangent-arm geometry, else the altitude for an altazimuth mount, else the declination.
It returns true when limit enforcement is disabled; otherwise for forward it returns
false iff (`c` below the axis2 minimum and pier side west) or (`c` above the axis2
maximum and pier side east) or (altazimuth mount and altitude above the altitude
maximum); for reverse it returns false iff (`c` below the minimum and pier side east) or
(`c` above the maximum and pier side west) or (altazimuth mount and altitude below the
altitude minimum); for any other action it returns true. Altitude, declination and pier
side are those of the position refreshed and converted to horizon coordinates. -/
theorem C16_validGuideAxis2_exact (e : Env) (m : Mount) (a : GuideAction) :
    (validGuideAxis2 e m a).1
      = validGuideAxis2Spec e.limitsEnabled e.mountType
          (e.equToHor (e.updatePosition m.current)).pierSide
          (axis2Coordinate e (e.equToHor (e.updatePosition m.current)))
          (e.equToHor (e.updatePosition m.current)).a
          e.axis2.limitsMin e.axis2.limitsMax e.limits.altitudeMin e.limits.altitudeMax a := by
  unfold validGuideAxis2 validGuideAxis2Spec updatePosition equToHor
  generalize e.equToHor (e.updatePosition m.current) = c
  generalize hc2 : axis2Coordinate e c = c2
  unfold axis2Coordinate at hc2
  cases e.limitsEnabled
  · rfl
  · simp only [apply_ite Prod.fst, Bool.not_true, Bool.false_eq_true, if_false, hc2]
    cases a
    · simp
    · simp
    · simp only [true_and, reduceCtorEq, false_and, if_false]
      split_ifs with h1 h2 h3
      · simp_all
      · simp_all
      · simp_all
      · simp_all
        simp only [← not_lt] at *
        tauto
    · simp only [true_and, reduceCtorEq, false_and, if_false]
      split_ifs with h1 h2 h3
      · simp_all
      · simp_all
      · simp_all
      · simp_all
        simp only [← not_lt] at *
        tauto

/-! ## C17 and C18: error gating and the life cycle of a slew-mode session -/

/-- The result code of start for either axis, as the first failing precondition. -/
theorem startGuide_result (ax : AxisId) (e : Env) (m : Mount) (a : GuideAction) (sel T : Nat) :
    (startGuide ax e m a sel T).1
      = firstFailingPrecondition (decide (a = GA_NONE ∨ m.guideAction ax = a))
          ((e.axis ax).driverFault || (e.axis ax).motorFault) (decide (e.parkState = PS_PARKED))
          (decide (e.gotoState ≠ GS_NONE) || isSpiralGuiding) (validGuide ax e m a).1
          (decide (sel = GR_QUARTER ∨ sel = GR_HALF ∨ sel = GR_1X))
          (e.anyError || (e.axis ax).motionError) := by
  cases ax
  · exact startGuideAxis1_result e m a sel T
  · exact startGuideAxis2_result e m a sel T

/-- C17: for either axis, in every state in which the request is not a no-op, the
fault, park, goto and limit checks pass, and the general error flag is set or the axis
reports a motion error, start fails with outside limits if and only if the selector is
quarter, half or 1x; for every other selector it returns success and records the
requested action. -/
theorem C17_slow_tier_error_gating (ax : AxisId) (e : Env) (m : Mount) (a : GuideAction)
    (sel T : Nat) (hnoop : ¬ (a = GA_NONE ∨ m.guideAction ax = a))
    (hfault : ((e.axis ax).driverFault || (e.axis ax).motorFault) = false)
    (hpark : e.parkState ≠ PS_PARKED) (hgoto : e.gotoState = GS_NONE)
    (hvalid : (validGuide ax e m a).1 = true)
    (herr : (e.anyError || (e.axis ax).motionError) = true) :
    ((startGuide ax e m a sel T).1 = CE_SLEW_ERR_OUTSIDE_LIMITS
        ↔ (sel = GR_QUARTER ∨ sel = GR_HALF ∨ sel = GR_1X))
    ∧ (¬ (sel = GR_QUARTER ∨ sel = GR_HALF ∨ sel = GR_1X) →
        (startGuide ax e m a sel T).1 = CE_NONE
          ∧ (startGuide ax e m a sel T).2.guideAction ax = a) := by
  have hres := startGuide_result ax e m a sel T
  simp only [firstFailingPrecondition, decide_eq_false hnoop, hfault, decide_eq_false hpark,
    hgoto, hvalid, herr, isSpiralGuiding, Bool.false_eq_true, if_false, ne_eq, not_true,
    decide_False, Bool.or_false, Bool.not_true, Bool.and_true, decide_eq_true_eq] at hres
  by_cases hsel : sel = GR_QUARTER ∨ sel = GR_HALF ∨ sel = GR_1X
  · rw [if_pos hsel] at hres
    exact ⟨⟨fun _ => hsel, fun _ => hres⟩, fun h => absurd hsel h⟩
  · rw [if_neg hsel] at hres
    refine ⟨⟨fun h => ?_, fun h => absurd h hsel⟩, fun _ => ⟨hres, ?_⟩⟩
    · rw [hres] at h; exact absurd h (by decide)
    · exact (startGuide_genuine ax e m a sel T hnoop hres).1

/-- C17 with the general error flag set on an otherwise healthy mount: the start of
axis1 at 1x is refused with outside limits, the start at 8x succeeds. -/
theorem C17_slow_tier_error_gating_witness :
    (startGuide .axis1 { sampleEnv 1000 with anyError := true } idleMount GA_FORWARD GR_1X
        0).1 = CE_SLEW_ERR_OUTSIDE_LIMITS
    ∧ (startGuide .axis1 { sampleEnv 1000 with anyError := true } idleMount GA_FORWARD GR_8X
        0).1 = CE_NONE :=
  ⟨(C17_slow_tier_error_gating .axis1 { sampleEnv 1000 with anyError := true } idleMount
      GA_FORWARD GR_1X 0 (by decide) (by decide) (by decide) (by decide) (by decide)
      (by decide)).1.mpr (by decide),
   ((C17_slow_tier_error_gating .axis1 { sampleEnv 1000 with anyError := true } idleMount
      GA_FORWARD GR_8X 0 (by decide) (by decide) (by decide) (by decide) (by decide)
      (by decide)).2 (by decide)).1⟩

/-- Polls during which the slew of axis1 is reported active leave a session of axis1
that is in break with offset rate 0 as it is. -/
theorem polls_while_active (polls : List Env) (m : Mount)
    (hactive : ∀ e ∈ polls, e.axis1.autoSlewActive = true)
    (h1 : m.guideActionAxis1 = GA_BREAK) (h2 : m.guideRateAxis1 = 0) :
    (polls.foldl (fun s e => pollGuides e s) m).guideActionAxis1 = GA_BREAK
      ∧ (polls.foldl (fun s e => pollGuides e s) m).guideRateAxis1 = 0 := by
  induction polls generalizing m with
  | nil => exact ⟨h1, h2⟩
  | cons e rest ih =>
    have he : e.axis1.autoSlewActive = true := hactive e (List.mem_cons_self _ _)
    obtain ⟨s1, s2, -⟩ := pollGuides_session .axis1 e m
    rw [pollGuide_break_active .axis1 e m h1 he] at s1 s2
    exact ih (pollGuides e m) (fun e' he' => hactive e' (List.mem_cons_of_mem _ he'))
      (s1.trans h1) (s2.trans h2)

/-- C18: for every start tick `t` and every time limit `T` with `0 < T < 2^31`, on an
idle axis1 of a healthy mount (no fault, not parked, no goto, forward within the
limits), `startGuideAxis1(GA_FORWARD, GR_8X, T)` returns success and leaves action
forward, offset rate 0, deadline `(t + T) mod 2^32`, having issued `setFrequencyMax` and
`autoSlew(DIR_FORWARD)`. A poll at a tick at or after the deadline (elapsed time `e`
with `T ≤ e` and `e - T < 2^31`) sets the action to break and issues `autoSlewStop`,
whatever the actuator reports. After any number of polls at which the slew is reported
active, the next poll at which it is reported inactive sets the action to none. -/
theorem C18_slew_mode_life_cycle (e1 e2 e3 : Env) (polls : List Env) (m : Mount) (T : Nat)
    (ht : e1.millis < 4294967296) (hT0 : 0 < T) (hT : T < 2147483648)
    (hidle : m.guideActionAxis1 = GA_NONE) (hrate : m.guideRateAxis1 = 0)
    (hfault : (e1.axis1.driverFault || e1.axis1.motorFault) = false)
    (hpark : e1.parkState ≠ PS_PARKED) (hgoto : e1.gotoState = GS_NONE)
    (hvalid : (validGuideAxis1 e1 m GA_FORWARD).1 = true)
    (hle : T ≤ elapsed e2.millis e1.millis)
    (hlt : elapsed e2.millis e1.millis - T < 2147483648)
    (hactive : ∀ e ∈ polls, e.axis1.autoSlewActive = true)
    (hinactive : e3.axis1.autoSlewActive = false) :
    (startGuideAxis1 e1 m GA_FORWARD GR_8X T).1 = CE_NONE
    ∧ (startGuideAxis1 e1 m GA_FORWARD GR_8X T).2.guideActionAxis1 = GA_FORWARD
    ∧ (startGuideAxis1 e1 m GA_FORWARD GR_8X T).2.guideRateAxis1 = 0
    ∧ (startGuideAxis1 e1 m GA_FORWARD GR_8X T).2.guideFinishTimeAxis1
        = (e1.millis + T) % 4294967296
    ∧ (startGuideAxis1 e1 m GA_FORWARD GR_8X T).2.trace
        = m.trace ++ [Command.setFrequencyMax 1 (e1.degToRad (8 / 240)),
            Command.autoSlew 1 DIR_FORWARD]
    ∧ (pollGuides e2 (startGuideAxis1 e1 m GA_FORWARD GR_8X T).2).guideActionAxis1 = GA_BREAK
    ∧ (pollGuideAxis1 e2 (startGuideAxis1 e1 m GA_FORWARD GR_8X T).2).trace
        = (startGuideAxis1 e1 m GA_FORWARD GR_8X T).2.trace ++ [Command.autoSlewStop 1]
    ∧ (pollGuides e3 (polls.foldl (fun s e => pollGuides e s)
        (pollGuides e2 (startGuideAxis1 e1 m GA_FORWARD GR_8X T).2))).guideActionAxis1
        = GA_NONE := by
  have hnoop : ¬ (GA_FORWARD = GA_NONE ∨ m.guideAction .axis1 = GA_FORWARD) := by
    intro h
    rcases h with h | h
    · exact absurd h (by decide)
    · rw [show m.guideAction .axis1 = m.guideActionAxis1 from rfl, hidle] at h
      exact absurd h (by decide)
  have hok : (startGuide .axis1 e1 m GA_FORWARD GR_8X T).1 = CE_NONE := by
    rw [startGuide_result]
    simp only [firstFailingPrecondition, decide_eq_false hnoop, Bool.false_eq_true, if_false]
    rw [show (e1.axis .axis1) = e1.axis1 from rfl, hfault, decide_eq_false hpark, hgoto,
      show validGuide .axis1 e1 m GA_FORWARD = validGuideAxis1 e1 m GA_FORWARD from rfl, hvalid]
    simp [isSpiralGuiding]
  obtain ⟨g1, g2, g3, g4⟩ := startGuide_genuine .axis1 e1 m GA_FORWARD GR_8X T hnoop hok
  have hr8 : ¬ guideRateSelectToRate e1 GR_8X e1.defaultAxis ≤ 2 := by
    show ¬ ((8 : ℚ) ≤ 2)
    norm_num
  rw [if_neg hr8] at g2 g4
  rw [if_neg (by omega)] at g3
  generalize hm1 : (startGuide .axis1 e1 m GA_FORWARD GR_8X T).2 = m1 at g1 g2 g3 g4
  have hm1' : (startGuideAxis1 e1 m GA_FORWARD GR_8X T).2 = m1 := hm1
  simp only [Mount.guideAction, Mount.guideRate, Mount.guideFinishTime] at g1 g2 g3
  rw [hrate] at g2
  have hguiding : isGuiding (m1.guideAction .axis1) = true := by
    rw [show m1.guideAction .axis1 = m1.guideActionAxis1 from rfl, g1]; rfl
  have hel : elapsed e2.millis e1.millis < 4294967296 := subUL_lt _ _
  have hpoll : pollGuide .axis1 e2 m1 = stopGuide .axis1 m1 := by
    rw [pollGuide_guiding .axis1 e2 m1 hguiding, if_pos]
    rw [show m1.guideFinishTime .axis1 = m1.guideFinishTimeAxis1 from rfl, g3,
      deadline_test _ _ _ ht (by omega)]
    omega
  obtain ⟨s1, s2, -, s4⟩ := stopGuide_slew .axis1 m1 hguiding g2
  obtain ⟨p1, p2, -⟩ := pollGuides_session .axis1 e2 m1
  rw [hpoll] at p1 p2
  have hb1 : (pollGuides e2 m1).guideActionAxis1 = GA_BREAK := p1.trans s1
  have hb2 : (pollGuides e2 m1).guideRateAxis1 = 0 := p2.trans s2
  obtain ⟨q1, q2⟩ := polls_while_active polls (pollGuides e2 m1) hactive hb1 hb2
  have hfin := (pollGuide_finalize .axis1 e3 _ q1 q2 hinactive).1
  rw [hm1']
  refine ⟨hok, g1, g2, ?_, ?_, hb1, ?_, ?_⟩
  · rw [g3]; rfl
  · rw [g4]; rfl
  · exact (congrArg Mount.trace hpoll).trans s4
  · exact ((pollGuides_session .axis1 e3 _).1).trans hfin

/-- C18 with the time limit 5000 at the start tick 1000: the poll at tick 6000 stops the
slew, the poll at tick 6100 with the slew still active leaves break, and the poll at
tick 6200 with the slew inactive gives none. -/
theorem C18_slew_mode_life_cycle_witness :
    (startGuideAxis1 (sampleEnv 1000) idleMount GA_FORWARD GR_8X 5000).2.guideFinishTimeAxis1
        = (1000 + 5000) % 4294967296
    ∧ (pollGuides (sampleEnv 6000)
        (startGuideAxis1 (sampleEnv 1000) idleMount GA_FORWARD GR_8X 5000).2).guideActionAxis1
        = GA_BREAK
    ∧ (pollGuides (sampleEnv 6200) ([slewingEnv 6100].foldl (fun s e => pollGuides e s)
        (pollGuides (sampleEnv 6000)
          (startGuideAxis1 (sampleEnv 1000) idleMount GA_FORWARD GR_8X
            5000).2))).guideActionAxis1 = GA_NONE :=
  ⟨(C18_slew_mode_life_cycle (sampleEnv 1000) (sampleEnv 6000) (sampleEnv 6200)
      [slewingEnv 6100] idleMount 5000 (by decide) (by decide) (by decide) rfl rfl (by decide)
      (by decide) (by decide) (by decide) (by decide) (by decide) (by decide)
      (by decide)).2.2.2.1,
   (C18_slew_mode_life_cycle (sampleEnv 1000) (sampleEnv 6000) (sampleEnv 6200)
      [slewingEnv 6100] idleMount 5000 (by decide) (by decide) (by decide) rfl rfl (by decide)
      (by decide) (by decide) (by decide) (by decide) (by decide) (by decide)
      (by decide)).2.2.2.2.2.1,
   (C18_slew_mode_life_cycle (sampleEnv 1000) (sampleEnv 6000) (sampleEnv 6200)
      [slewingEnv 6100] idleMount 5000 (by decide) (by decide) (by decide) rfl rfl (by decide)
      (by decide) (by decide) (by decide) (by decide) (by decide) (by decide)
      (by decide)).2.2.2.2.2.2.2⟩

/-! ## C10, C19 and C20: reachable states and the two copies of the code -/

/-- A start of one axis leaves the session fields of the other axis alone. -/
theorem startGuide_other (ax ax' : AxisId) (e : Env) (m : Mount) (a : GuideAction)
    (sel T : Nat) (h : ax ≠ ax') :
    (startGuide ax e m a sel T).2.guideAction ax' = m.guideAction ax'
      ∧ (startGuide ax e m a sel T).2.guideRate ax' = m.guideRate ax'
      ∧ (startGuide ax e m a sel T).2.guideFinishTime ax' = m.guideFinishTime ax' := by
  cases ax <;> cases ax'
  · exact absurd rfl h
  · have hv := validGuideAxis1_frame e m a
    rcases startGuideAxis1_cases e m a sel T with ⟨_, h1⟩ | ⟨_, h2⟩ | ⟨_, err, -, h3 | h3⟩
    · simp only [startGuide, h1, and_self]
    · simp only [startGuide, h2, engageGuideAxis1_eq, Mount.guideAction, Mount.guideRate,
        Mount.guideFinishTime]
      rw [hv]; simp
    · simp only [startGuide, h3, and_self]
    · simp only [startGuide, h3, Mount.guideAction, Mount.guideRate, Mount.guideFinishTime]
      rw [hv]; simp
  · have hv := validGuideAxis2_frame e m a
    rcases startGuideAxis2_cases e m a sel T with ⟨_, h1⟩ | ⟨_, h2⟩ | ⟨_, err, -, h3 | h3⟩
    · simp only [startGuide, h1, and_self]
    · simp only [startGuide, h2, engageGuideAxis2_eq, Mount.guideAction, Mount.guideRate,
        Mount.guideFinishTime]
      rw [hv]; simp
    · simp only [startGuide, h3, and_self]
    · simp only [startGuide, h3, Mount.guideAction, Mount.guideRate, Mount.guideFinishTime]
      rw [hv]; simp
  · exact absurd rfl h

/-- A stop of one axis leaves the session fields of the other axis alone. -/
theorem stopGuide_other (ax ax' : AxisId) (m : Mount) (h : ax ≠ ax') :
    (stopGuide ax m).guideAction ax' = m.guideAction ax'
      ∧ (stopGuide ax m).guideRate ax' = m.guideRate ax'
      ∧ (stopGuide ax m).guideFinishTime ax' = m.guideFinishTime ax' := by
  cases ax <;> cases ax' <;> first
    | exact absurd rfl h
    | (simp only [stopGuide, stopGuideAxis1, stopGuideAxis2, Mount.guideAction,
        Mount.guideRate, Mount.guideFinishTime]
       split_ifs <;> simp [updateTrackingRates, autoSlewStop, issue, setGuideRateAxis1,
        setGuideActionAxis1, setGuideRateAxis2, setGuideActionAxis2])

/-- What a half of the poller does, with the commands it issues. -/
theorem pollGuide_effect (ax : AxisId) (e : Env) (m : Mount) :
    pollGuide ax e m = m ∨ pollGuide ax e m = stopGuide ax m
      ∨ (m.guideAction ax = GA_BREAK ∧ m.guideRate ax = 0
          ∧ (pollGuide ax e m).guideAction ax = GA_NONE
          ∧ (pollGuide ax e m).guideRate ax = 0
          ∧ (pollGuide ax e m).trace = m.trace ++ [Command.updateTrackingRates]) := by
  cases ax
  · simp only [pollGuide, pollGuideAxis1, stopGuide, Mount.guideAction, Mount.guideRate]
    split_ifs with h1 h2
    · exact Or.inr (Or.inr ⟨h1.1, h1.2.1, rfl, h1.2.1, rfl⟩)
    · exact Or.inr (Or.inl rfl)
    · exact Or.inl rfl
  · simp only [pollGuide, pollGuideAxis2, stopGuide, Mount.guideAction, Mount.guideRate]
    split_ifs with h1 h2
    · exact Or.inr (Or.inr ⟨h1.1, h1.2.1, rfl, h1.2.1, rfl⟩)
    · exact Or.inr (Or.inl rfl)
    · exact Or.inl rfl

/-- After a stop the offset rate of a session that is not forward or reverse is 0,
provided this held before. -/
theorem stopGuide_keeps_rate_zero (ax : AxisId) (m : Mount)
    (ih : isGuiding (m.guideAction ax) = false → m.guideRate ax = 0) :
    isGuiding ((stopGuide ax m).guideAction ax) = false → (stopGuide ax m).guideRate ax = 0 := by
  intro _
  cases hg : isGuiding (m.guideAction ax)
  · rw [stopGuide_idle ax m hg]; exact ih hg
  · by_cases hr : m.guideRate ax = 0
    · exact (stopGuide_slew ax m hg hr).2.1
    · exact (stopGuide_offset ax m hg hr).2.1

/-- In every state reachable by starts that never request break, a session whose
action is not forward or reverse has offset rate 0. -/
theorem reachable_rate_zero (allowed : GuideAction → Prop)
    (hallowed : ∀ a, allowed a → a ≠ GA_BREAK) (m : Mount) (hm : Reachable allowed m) :
    ∀ ax : AxisId, isGuiding (m.guideAction ax) = false → m.guideRate ax = 0 := by
  induction hm with
  | init m h1 h2 h3 h4 =>
    intro ax _
    cases ax
    · exact h2
    · exact h4
  | start ax e m a sel T _ ha _ _ ih =>
    intro ax' hidle
    by_cases hax : ax = ax'
    · subst hax
      by_cases hn : a = GA_NONE ∨ m.guideAction ax = a
      · rw [startGuide_noop ax e m a sel T hn] at hidle ⊢
        exact ih ax hidle
      · by_cases hok : (startGuide ax e m a sel T).1 = CE_NONE
        · have hact := (startGuide_genuine ax e m a sel T hn hok).1
          rw [hact] at hidle
          have hb := hallowed a ha
          have h0 : a ≠ GA_NONE := fun h => hn (Or.inl h)
          cases a <;> simp_all [isGuiding]
        · obtain ⟨h1, h2, -, -⟩ := session_ext ax m _ (startGuide_reject ax e m a sel T hok)
          rw [h1] at hidle
          rw [h2]
          exact ih ax hidle
    · obtain ⟨h1, h2, -⟩ := startGuide_other ax ax' e m a sel T hax
      rw [h1] at hidle
      rw [h2]
      exact ih ax' hidle
  | stop ax m _ ih =>
    intro ax' hidle
    by_cases hax : ax = ax'
    · subst hax
      exact stopGuide_keeps_rate_zero ax m (ih ax) hidle
    · obtain ⟨h1, h2, -⟩ := stopGuide_other ax ax' m hax
      rw [h1] at hidle
      rw [h2]
      exact ih ax' hidle
  | poll e m _ _ ih =>
    intro ax hidle
    obtain ⟨s1, s2, -⟩ := pollGuides_session ax e m
    rw [s1] at hidle
    rw [s2]
    rcases pollGuide_effect ax e m with h | h | ⟨-, -, -, h, -⟩
    · rw [h] at hidle ⊢
      exact ih ax hidle
    · rw [h] at hidle ⊢
      exact stopGuide_keeps_rate_zero ax m (ih ax) hidle
    · exact h

/-- C10 as amended: in every state reachable from two idle sessions by start (with
requested action forward or reverse), stop and poll calls under arbitrary inputs,
exactly one of the following holds for each axis: offset-mode active (offset rate not
0, which in these states occurs only while the action is forward or reverse), slew-mode
active (action forward or reverse and offset rate 0), stopping (action break and offset
rate 0), or idle (action none and offset rate 0). A session with action none or break
and an offset rate other than 0 is in none of the four and is not reachable. -/
theorem C10_exactly_one_mode (m : Mount)
    (hm : Reachable (fun a => a = GA_FORWARD ∨ a = GA_REVERSE) m) (ax : AxisId) :
    exactlyOne [offsetModeGuiding m ax, slewModeActive m ax, isStopping m ax, isIdle m ax]
      = true
    ∧ offsetModeActive m ax = offsetModeGuiding m ax := by
  have h0 : isGuiding (m.guideAction ax) = false → m.guideRate ax = 0 :=
    reachable_rate_zero _
      (fun a ha => by rcases ha with h | h <;> rw [h] <;> decide) m hm ax
  by_cases hr : m.guideRate ax = 0
  · cases ha : m.guideAction ax <;>
      simp [exactlyOne, offsetModeActive, offsetModeGuiding, slewModeActive, isStopping,
        isIdle, isGuiding, hr, ha]
  · cases ha : m.guideAction ax
    · exact absurd (h0 (by rw [ha]; rfl)) hr
    · exact absurd (h0 (by rw [ha]; rfl)) hr
    · simp [exactlyOne, offsetModeActive, offsetModeGuiding, slewModeActive, isStopping,
        isIdle, isGuiding, hr, ha]
    · simp [exactlyOne, offsetModeActive, offsetModeGuiding, slewModeActive, isStopping,
        isIdle, isGuiding, hr, ha]

/-- C10 as amended in two reachable states of axis1: after a start forward at 8x
followed by a stop the session is stopping, and after a start forward at 1x the offset
mode is active with the action forward. -/
theorem C10_exactly_one_mode_witness :
    exactlyOne
      [offsetModeGuiding (stopGuide .axis1
          (startGuide .axis1 (sampleEnv 1000) idleMount GA_FORWARD GR_8X 5000).2) .axis1,
        slewModeActive (stopGuide .axis1
          (startGuide .axis1 (sampleEnv 1000) idleMount GA_FORWARD GR_8X 5000).2) .axis1,
        isStopping (stopGuide .axis1
          (startGuide .axis1 (sampleEnv 1000) idleMount GA_FORWARD GR_8X 5000).2) .axis1,
        isIdle (stopGuide .axis1
          (startGuide .axis1 (sampleEnv 1000) idleMount GA_FORWARD GR_8X 5000).2) .axis1]
      = true
    ∧ offsetModeActive (startGuide .axis1 (sampleEnv 1000) idleMount GA_FORWARD GR_1X 5000).2
        .axis1
      = offsetModeGuiding (startGuide .axis1 (sampleEnv 1000) idleMount GA_FORWARD GR_1X 5000).2
        .axis1 :=
  ⟨(C10_exactly_one_mode _
      (Reachable.stop _ _
        (Reachable.start .axis1 (sampleEnv 1000) idleMount GA_FORWARD GR_8X 5000
          (Reachable.init idleMount rfl rfl rfl rfl) (Or.inl rfl) (by decide) (by decide)))
      .axis1).1,
   (C10_exactly_one_mode _
      (Reachable.start .axis1 (sampleEnv 1000) idleMount GA_FORWARD GR_1X 5000
        (Reachable.init idleMount rfl rfl rfl rfl) (Or.inl rfl) (by decide) (by decide))
      .axis1).2⟩

/-- The four modes do not cover every mount: with action none and offset rate 7, a
state that is not reachable, none of them holds, and offset rate not 0 no longer means
forward or reverse. -/
theorem modes_need_reachability :
    exactlyOne
      [offsetModeGuiding { idleMount with guideRateAxis1 := 7 } .axis1,
        slewModeActive { idleMount with guideRateAxis1 := 7 } .axis1,
        isStopping { idleMount with guideRateAxis1 := 7 } .axis1,
        isIdle { idleMount with guideRateAxis1 := 7 } .axis1] = false
    ∧ offsetModeActive { idleMount with guideRateAxis1 := 7 } .axis1 = true
    ∧ offsetModeGuiding { idleMount with guideRateAxis1 := 7 } .axis1 = false := by
  decide

/-- C19: in every state reachable from two idle sessions by start calls whose requested
action is none, forward or reverse, stop calls and poll calls, under arbitrary inputs, a
session of either axis whose action is none or break has offset rate 0. The restriction
on the requested action is needed: on an idle healthy mount a start of axis1 with the
requested action break at 1x is accepted and leaves the action break with offset rate
1. -/
theorem C19_idle_or_break_has_zero_rate (m : Mount)
    (hm : Reachable (fun a => a = GA_NONE ∨ a = GA_FORWARD ∨ a = GA_REVERSE) m) (ax : AxisId) :
    ((m.guideAction ax = GA_NONE ∨ m.guideAction ax = GA_BREAK) → m.guideRate ax = 0)
    ∧ (startGuide .axis1 (sampleEnv 1000) idleMount GA_BREAK GR_1X 0).1 = CE_NONE
    ∧ (startGuide .axis1 (sampleEnv 1000) idleMount GA_BREAK GR_1X 0).2.guideAction .axis1
        = GA_BREAK
    ∧ (startGuide .axis1 (sampleEnv 1000) idleMount GA_BREAK GR_1X 0).2.guideRate .axis1 = 1 := by
  refine ⟨fun h => ?_, by decide, by decide, by decide⟩
  apply reachable_rate_zero _ _ m hm ax
  · rcases h with h | h <;> rw [h] <;> rfl
  · intro a ha
    rcases ha with h | h | h <;> rw [h] <;> decide

/-- C19 in the state reached by a start of axis1 forward at 1x followed by a stop: the
action is none and the offset rate 0. -/
theorem C19_idle_or_break_has_zero_rate_witness :
    (stopGuide .axis1
        (startGuide .axis1 (sampleEnv 1000) idleMount GA_FORWARD GR_1X 0).2).guideRate .axis1
      = 0 :=
  (C19_idle_or_break_has_zero_rate _
    (Reachable.stop .axis1 _
      (Reachable.start .axis1 (sampleEnv 1000) idleMount GA_FORWARD GR_1X 0
        (Reachable.init idleMount rfl rfl rfl rfl) (Or.inr (Or.inl rfl)) (by decide)
        (by decide)))
    .axis1).1 (Or.inl (by decide))

/-- The two orders of polling the axes give the same session fields. -/
theorem poll_order (e : Env) (m : Mount) :
    sessions (pollGuideAxis2 e (pollGuideAxis1 e m))
      = sessions (pollGuideAxis1 e (pollGuideAxis2 e m)) := by
  obtain ⟨a1, a2, a3⟩ := pollGuide_other .axis2 .axis1 e (pollGuideAxis1 e m) (by decide)
  obtain ⟨b1, b2, b3⟩ := pollGuide_other .axis1 .axis2 e (pollGuideAxis2 e m) (by decide)
  obtain ⟨c1, c2, c3⟩ := pollGuide_other .axis1 .axis2 e m (by decide)
  obtain ⟨d1, d2, d3⟩ := pollGuide_other .axis2 .axis1 e m (by decide)
  obtain ⟨f1, f2, f3⟩ := pollGuide_congr .axis2 e m (pollGuideAxis1 e m) c1 c2 c3
  obtain ⟨g1, g2, g3⟩ := pollGuide_congr .axis1 e m (pollGuideAxis2 e m) d1 d2 d3
  simp only [pollGuide, Mount.guideAction, Mount.guideRate, Mount.guideFinishTime] at *
  simp only [sessions, a1, a2, a3, b1, b2, b3, f1, f2, f3, g1, g2, g3]

/-- C20: the code of axis2 is the code of axis1 under the renaming of the session
fields, the axis object and the validator: `startGuideAxisN`, `stopGuideAxisN` and the
two halves of `pollGuides` are the two instances of one text written over these names.
Every operation of one axis leaves the action, the offset rate and the deadline of the
other axis unchanged, and polling axis1 then axis2 gives the same session fields of
both axes as polling axis2 then axis1. -/
theorem C20_axes_identical_and_independent (e : Env) (m : Mount) (a : GuideAction)
    (sel T : Nat) :
    (startGuideAxis1 = startGuideTemplate namesAxis1
      ∧ startGuideAxis2 = startGuideTemplate namesAxis2
      ∧ stopGuideAxis1 = stopGuideTemplate namesAxis1
      ∧ stopGuideAxis2 = stopGuideTemplate namesAxis2
      ∧ pollGuideAxis1 = pollGuideTemplate namesAxis1
      ∧ pollGuideAxis2 = pollGuideTemplate namesAxis2)
    ∧ (∀ ax ax' : AxisId, ax ≠ ax' →
        ((startGuide ax e m a sel T).2.guideAction ax' = m.guideAction ax'
          ∧ (startGuide ax e m a sel T).2.guideRate ax' = m.guideRate ax'
          ∧ (startGuide ax e m a sel T).2.guideFinishTime ax' = m.guideFinishTime ax')
        ∧ ((stopGuide ax m).guideAction ax' = m.guideAction ax'
          ∧ (stopGuide ax m).guideRate ax' = m.guideRate ax'
          ∧ (stopGuide ax m).guideFinishTime ax' = m.guideFinishTime ax')
        ∧ ((pollGuide ax e m).guideAction ax' = m.guideAction ax'
          ∧ (pollGuide ax e m).guideRate ax' = m.guideRate ax'
          ∧ (pollGuide ax e m).guideFinishTime ax' = m.guideFinishTime ax'))
    ∧ pollGuides e m = pollGuideAxis2 e (pollGuideAxis1 e m)
    ∧ sessions (pollGuideAxis2 e (pollGuideAxis1 e m))
        = sessions (pollGuideAxis1 e (pollGuideAxis2 e m)) :=
  ⟨⟨rfl, rfl, rfl, rfl, rfl, rfl⟩,
    fun ax ax' h =>
      ⟨startGuide_other ax ax' e m a sel T h, stopGuide_other ax ax' m h,
        pollGuide_other ax ax' e m h⟩,
    rfl, poll_order e m⟩

/-- C20 on a mount with both sessions in slew mode past their deadlines: a stop of axis1
leaves the action of axis2 forward, and both orders of polling end with both axes in
break. -/
theorem C20_axes_identical_and_independent_witness :
    (stopGuide .axis1
        (startGuide .axis2 (sampleEnv 1000)
          (startGuide .axis1 (sampleEnv 1000) idleMount GA_FORWARD GR_8X 5000).2
          GA_FORWARD GR_8X 5000).2).guideAction .axis2
      = (startGuide .axis2 (sampleEnv 1000)
          (startGuide .axis1 (sampleEnv 1000) idleMount GA_FORWARD GR_8X 5000).2
          GA_FORWARD GR_8X 5000).2.guideAction .axis2 :=
  ((C20_axes_identical_and_independent (sampleEnv 7000)
      (startGuide .axis2 (sampleEnv 1000)
        (startGuide .axis1 (sampleEnv 1000) idleMount GA_FORWARD GR_8X 5000).2
        GA_FORWARD GR_8X 5000).2 GA_FORWARD GR_8X 5000).2.1 .axis1 .axis2 (by decide)).2.1.1

/-! ## Scope of the defect behind C7 and C11 -/

theorem slewLeftRunning_recompute (n : Nat) (t : List Command) :
    slewLeftRunning n (t ++ [Command.updateTrackingRates]) = slewLeftRunning n t := by
  simp only [slewLeftRunning, List.foldl_append, List.foldl_cons, List.foldl_nil]

theorem slewLeftRunning_stop (n k : Nat) (t : List Command) :
    slewLeftRunning n (t ++ [Command.autoSlewStop k])
      = if k = n then false else slewLeftRunning n t := by
  simp only [slewLeftRunning, List.foldl_append, List.foldl_cons, List.foldl_nil]

theorem slewLeftRunning_slew (n k : Nat) (f : ℚ) (d : Direction) (t : List Command) :
    slewLeftRunning n (t ++ [Command.setFrequencyMax k f, Command.autoSlew k d])
      = if k = n then true else slewLeftRunning n t := by
  simp only [slewLeftRunning, List.foldl_append, List.foldl_cons, List.foldl_nil]

theorem number_ne (ax ax' : AxisId) (h : ax ≠ ax') : ax.number ≠ ax'.number := by
  cases ax <;> cases ax' <;> first | exact absurd rfl h | decide

/-- A stop of any axis keeps every session consistent with the trace. -/
theorem stopGuide_consistent (ax : AxisId) (m : Mount) (h : ∀ x, sessionConsistent m x) :
    ∀ x, sessionConsistent (stopGuide ax m) x := by
  intro x
  obtain ⟨i1, i2⟩ := h x
  cases hg : isGuiding (m.guideAction ax)
  · rw [stopGuide_idle ax m hg]; exact h x
  · by_cases hr : m.guideRate ax = 0
    · obtain ⟨s1, s2, -, s4⟩ := stopGuide_slew ax m hg hr
      by_cases hx : ax = x
      · subst hx
        refine ⟨fun _ => s2, fun hrun => ?_⟩
        rw [s4, slewLeftRunning_stop, if_pos rfl] at hrun
        exact absurd hrun (by decide)
      · obtain ⟨o1, o2, -⟩ := stopGuide_other ax x m hx
        unfold sessionConsistent
        rw [o1, o2, s4, slewLeftRunning_stop, if_neg (number_ne ax x hx)]
        exact ⟨i1, i2⟩
    · obtain ⟨s1, s2, -, s4⟩ := stopGuide_offset ax m hg hr
      by_cases hx : ax = x
      · subst hx
        refine ⟨fun _ => s2, fun hrun => ?_⟩
        rw [s4, slewLeftRunning_recompute] at hrun
        exact absurd (i2 hrun).2 hr
      · obtain ⟨o1, o2, -⟩ := stopGuide_other ax x m hx
        unfold sessionConsistent
        rw [o1, o2, s4, slewLeftRunning_recompute]
        exact ⟨i1, i2⟩

/-- A half of the poller keeps every session consistent with the trace. -/
theorem pollGuide_consistent (ax : AxisId) (e : Env) (m : Mount)
    (h : ∀ x, sessionConsistent m x) : ∀ x, sessionConsistent (pollGuide ax e m) x := by
  intro x
  rcases pollGuide_effect ax e m with hp | hp | ⟨hb, -, p1, p2, p3⟩
  · rw [hp]; exact h x
  · rw [hp]; exact stopGuide_consistent ax m h x
  · obtain ⟨i1, i2⟩ := h x
    by_cases hx : ax = x
    · subst hx
      refine ⟨fun _ => p2, fun hrun => ?_⟩
      rw [p3, slewLeftRunning_recompute] at hrun
      have hg := (i2 hrun).1
      rw [hb] at hg
      exact absurd hg (by decide)
    · obtain ⟨o1, o2, -⟩ := pollGuide_other ax x e m hx
      unfold sessionConsistent
      rw [o1, o2, p3, slewLeftRunning_recompute]
      exact ⟨i1, i2⟩

/-- A start, forward or reverse, of an axis whose action is none keeps every session
consistent with the trace. -/
theorem startGuide_consistent (ax : AxisId) (e : Env) (m : Mount) (a : GuideAction)
    (sel T : Nat) (hidle : m.guideAction ax = GA_NONE) (ha : a = GA_FORWARD ∨ a = GA_REVERSE)
    (h : ∀ x, sessionConsistent m x) : ∀ x, sessionConsistent (startGuide ax e m a sel T).2 x := by
  intro x
  obtain ⟨i1, i2⟩ := h x
  have hn : ¬ (a = GA_NONE ∨ m.guideAction ax = a) := by
    rw [hidle]
    rcases ha with ha | ha <;> rw [ha] <;> decide
  have hga : isGuiding a = true := (isGuiding_iff a).mpr ha
  by_cases hok : (startGuide ax e m a sel T).1 = CE_NONE
  · obtain ⟨g1, g2, -, g4⟩ := startGuide_genuine ax e m a sel T hn hok
    have hrate0 : m.guideRate ax = 0 := (h ax).1 (by rw [hidle]; rfl)
    have hnot : slewLeftRunning ax.number m.trace ≠ true := by
      intro hrun
      have hg := ((h ax).2 hrun).1
      rw [hidle] at hg
      exact absurd hg (by decide)
    by_cases hx : ax = x
    · subst hx
      refine ⟨fun hg => ?_, fun hrun => ⟨by rw [g1]; exact hga, ?_⟩⟩
      · rw [g1, hga] at hg; exact absurd hg (by decide)
      · by_cases hr : guideRateSelectToRate e sel e.defaultAxis ≤ 2
        · rw [g4, if_pos hr, slewLeftRunning_recompute] at hrun
          exact absurd hrun hnot
        · rw [g2, if_neg hr]; exact hrate0
    · obtain ⟨o1, o2, -⟩ := startGuide_other ax x e m a sel T hx
      unfold sessionConsistent
      rw [o1, o2, g4]
      by_cases hr : guideRateSelectToRate e sel e.defaultAxis ≤ 2
      · rw [if_pos hr, slewLeftRunning_recompute]; exact ⟨i1, i2⟩
      · rw [if_neg hr, slewLeftRunning_slew, if_neg (number_ne ax x hx)]; exact ⟨i1, i2⟩
  · have hfr := startGuide_reject ax e m a sel T hok
    obtain ⟨r1, r2, -, r4⟩ := session_ext x m _ hfr
    unfold sessionConsistent
    rw [r1, r2, r4]
    exact ⟨i1, i2⟩

/-- Scope of the defect behind C7 and C11: when a start is only issued for an axis whose
action is none, every reachable state is consistent with the trace; in particular a
session whose action is none has offset rate 0 and no automatic slew of its axis is
left running without a stop request. -/
theorem starting_idle_keeps_slew_stopped (m : Mount) (hm : ReachableStartingIdle m)
    (ax : AxisId) :
    sessionConsistent m ax
      ∧ (m.guideAction ax = GA_NONE →
          m.guideRate ax = 0 ∧ slewLeftRunning ax.number m.trace = false) := by
  have hall : ∀ x, sessionConsistent m x := by
    induction hm with
    | init m h1 h2 h3 h4 h5 =>
      intro x
      unfold sessionConsistent
      rw [h5]
      cases x
      · exact ⟨fun _ => h2, fun hrun => absurd hrun (by decide)⟩
      · exact ⟨fun _ => h4, fun hrun => absurd hrun (by decide)⟩
    | start ax e m a sel T _ hidle ha _ _ ih => exact startGuide_consistent ax e m a sel T hidle ha ih
    | stop ax m _ ih => exact stopGuide_consistent ax m ih
    | poll e m _ _ ih =>
      exact pollGuide_consistent .axis2 e _ (pollGuide_consistent .axis1 e m ih)
  refine ⟨hall ax, fun hnone => ⟨(hall ax).1 (by rw [hnone]; rfl), ?_⟩⟩
  cases hrun : slewLeftRunning ax.number m.trace
  · rfl
  · have hg := ((hall ax).2 hrun).1
    rw [hnone] at hg
    exact absurd hg (by decide)

end OnStepX
